import Mathlib

/-!
# Element model and diagram tool of the whiteboard editor

A shallow embedding of `src/types/index.js` (`createElement`), of
`src/tools/MermaidTool.js` (the diagram tool's state machine), of the parts of
`src/App.jsx` that drive the tool (the two editor callbacks that the tool receives
through `setEditorCallbacks`, `handleSelectAll`, the tool reference and the registry
of `src/tools/index.js`), of `renderPreview` and `handleInsert` of
`src/components/MermaidPanel/MermaidPanel.jsx`, and of `renderMermaidToSvg` of
`src/utils/mermaidRenderer.js`.

Conventions of the embedding:

* JavaScript numbers are exact rationals (no rounding, no NaN, no infinities).
* A JavaScript object is the sequence of its property writes, oldest first; a
  read returns the last write of the key.  An object literal
  `{...a, ...b, k: v}` is then `a ++ b ++ [(k, v)]`.  Properties are compared
  through reads (`own`, `prop`), never through the order of the writes.
* Calls that leave the tool (the store's `addElement` / `commitChanges`, the
  callbacks) are recorded, in order, in `World.effects`.
* `null` and `undefined` fields of the tool are both `none`.
* An awaited call on the `mermaid` library is its outcome: the value it resolves
  to or the error it throws; a function that can throw returns an `Except`.
-/

namespace Excalidraw

/-! ## JavaScript values and objects -/

/-- A JavaScript value. -/
inductive Val where
  | undefined
  | null
  | bool (b : Bool)
  | num (n : ℚ)
  | str (s : String)
  | arr (items : List Val)
  | obj (fields : List (String × Val))

/-- An object: its property writes, oldest first. -/
abbrev Obj := List (String × Val)

/-- The own property `k` of `o`, if `o` has one: the last write of `k`. -/
def own : Obj → String → Option Val
  | [], _ => none
  | (k', v) :: rest, k =>
    match own rest k with
    | some w => some w
    | none => if k' = k then some v else none

/-- The property read `o.k`: `undefined` when `o` has no property `k`. -/
def prop (o : Obj) (k : String) : Val := (own o k).getD Val.undefined

/-- JavaScript truthiness: `undefined`, `null`, `false`, `0` and `''` are falsy. -/
def truthy : Val → Bool
  | Val.undefined => false
  | Val.null => false
  | Val.bool b => b
  | Val.num n => decide (n ≠ 0)
  | Val.str s => decide (s ≠ "")
  | Val.arr _ => true
  | Val.obj _ => true

/-- The expression `a || b`. -/
def jsOr (a b : Val) : Val := if truthy a then a else b

/-! ## `src/types/index.js` -/

/-- What one `createElement` call reads from the clock and the random generator:
`Date.now()`, the text `Math.random().toString(36).substr(2, 9)` and the number
`Math.floor(Math.random() * 2 ** 31)`. -/
structure Entropy where
  now : Nat
  idDraw : String
  seedDraw : Nat

/-- The placeholder diagram source. -/
def placeholderCode : String := "graph TD\n  A[Start] --> B\x7bDecision\x7d"

/-- The generated id, `el_${Date.now()}_${...}`. -/
def generatedId (r : Entropy) : String := "el_" ++ toString r.now ++ "_" ++ r.idDraw

/-- The object `baseElement` of `createElement`. -/
def baseElement (r : Entropy) (type : String) (x y : ℚ) (options : Obj) : Obj :=
  [("id", jsOr (prop options "id") (Val.str (generatedId r))),
   ("type", Val.str type),
   ("x", Val.num x),
   ("y", Val.num y),
   ("width", jsOr (prop options "width") (Val.num 0)),
   ("height", jsOr (prop options "height") (Val.num 0)),
   ("stroke", jsOr (prop options "stroke") (Val.str "#000000")),
   ("fill", jsOr (prop options "fill") (Val.str "transparent")),
   ("strokeWidth", jsOr (prop options "strokeWidth") (Val.num 2)),
   ("roughness", jsOr (prop options "roughness") (Val.num 1)),
   ("seed", jsOr (prop options "seed") (Val.num r.seedDraw)),
   ("angle", jsOr (prop options "angle") (Val.num 0)),
   ("opacity", jsOr (prop options "opacity") (Val.num 100))]

/-- The function `createElement(type, x, y, options)`. -/
def createElement (r : Entropy) (type : String) (x y : ℚ) (options : Obj) : Obj :=
  if type = "draw" ∨ type = "arrow" then
    baseElement r type x y options ++
      [("points", jsOr (prop options "points") (Val.arr []))]
  else if type = "text" then
    baseElement r type x y options ++
      [("text", jsOr (prop options "text") (Val.str "")),
       ("fontSize", jsOr (prop options "fontSize") (Val.num 20)),
       ("fontFamily", jsOr (prop options "fontFamily") (Val.str "Arial")),
       ("fontWeight", jsOr (prop options "fontWeight") (Val.str "normal")),
       ("textAlign", jsOr (prop options "textAlign") (Val.str "left"))]
  else if type = "mermaid" then
    baseElement r type x y options ++
      [("mermaidCode", jsOr (prop options "mermaidCode") (Val.str placeholderCode)),
       ("renderedSvg", jsOr (prop options "renderedSvg") (Val.str "")),
       ("theme", jsOr (prop options "theme") (Val.str "default")),
       ("diagramType", jsOr (prop options "diagramType") (Val.str "flowchart")),
       ("mermaidConfig", jsOr (prop options "mermaidConfig") (Val.obj [])),
       ("width", jsOr (prop options "width") (Val.num 400)),
       ("height", jsOr (prop options "height") (Val.num 300))]
  else
    baseElement r type x y options

/-! ## `src/tools/MermaidTool.js` -/

/-- A canvas point `{ x, y }`. -/
structure Point where
  x : ℚ
  y : ℚ

/-- What the tool reads of a pointer event: `clientX`, `clientY` and the
`left` / `top` of `e.target.getBoundingClientRect()`. -/
structure MouseEvent where
  clientX : ℚ
  clientY : ℚ
  rectLeft : ℚ
  rectTop : ℚ

/-- What the tool reads of a key event. -/
structure KeyEvent where
  key : String

/-- The `state` argument of the handlers.  `getCurrentStyle` is the object that
`state.getCurrentStyle()` returns when the state has that method;
`openMermaidEditor` tells whether the state carries an `openMermaidEditor`
callback.  The state's `addElement` and `commitChanges` are recorded as effects. -/
structure EditorState where
  scrollX : ℚ
  scrollY : ℚ
  zoom : ℚ
  getCurrentStyle : Option Obj
  openMermaidEditor : Bool

/-- The fields of a `MermaidTool` instance that its methods read or write
(`name`, `cursor` and `editorElement` are never written after construction).
`callbacksInjected` tells whether the instance properties `openMermaidEditor` and
`closeMermaidEditor` shadow the prototype methods. -/
structure MermaidTool where
  isDrawing : Bool
  isEditing : Bool
  previewElement : Option Obj
  startPoint : Option Point
  editorPosition : Option Point
  editorState : Option EditorState
  callbacksInjected : Bool

/-- The state `mermaidEditor` of `App`: `{ isOpen, position }`. -/
structure PanelState where
  isOpen : Bool
  position : Option ℚ

/-- A call that leaves the tool. -/
inductive Effect where
  | addElement (el : Obj)
  | commitChanges
  | stateOpenMermaidEditor (x y : ℚ)
  | handleOpenMermaidEditor (position : ℚ)
  | handleCloseMermaidEditor

/-- The tool, the editor panel state of `App`, and the calls made so far. -/
structure World where
  tool : MermaidTool
  mermaidEditor : PanelState
  effects : List Effect

/-- The constructor `new MermaidTool()`. -/
def MermaidTool.new : MermaidTool :=
  { isDrawing := false, isEditing := false, previewElement := none, startPoint := none,
    editorPosition := none, editorState := none, callbacksInjected := false }

/-- A session that starts with a fresh tool and a closed editor panel. -/
def World.new : World :=
  { tool := MermaidTool.new, mermaidEditor := { isOpen := false, position := none },
    effects := [] }

/-- The method `reset()`. -/
def MermaidTool.reset (t : MermaidTool) : MermaidTool :=
  { t with isDrawing := false, isEditing := false, previewElement := none,
           startPoint := none, editorState := none }

/-- The method `reset()` within a session. -/
def reset (w : World) : World := { w with tool := w.tool.reset }

/-- The method `getCanvasCoordinates(e, state)`.  The division is that of the
source when `state.zoom` is not 0; at zoom 0 the source yields an infinity or NaN,
which the rationals do not have. -/
def getCanvasCoordinates (e : MouseEvent) (state : EditorState) : Point :=
  { x := (e.clientX - e.rectLeft - state.scrollX) / state.zoom,
    y := (e.clientY - e.rectTop - state.scrollY) / state.zoom }

/-- The callback `handleOpenMermaidEditor(position)` of `App`. -/
def handleOpenMermaidEditor (w : World) (position : ℚ) : World :=
  { w with mermaidEditor := { isOpen := true, position := some position },
           effects := w.effects ++ [Effect.handleOpenMermaidEditor position] }

/-- The callback `handleCloseMermaidEditor()` of `App`, with the diagram tool as
the current tool instance: it closes the panel and resets the tool. -/
def handleCloseMermaidEditor (w : World) : World :=
  reset { w with mermaidEditor := { isOpen := false, position := none },
                 effects := w.effects ++ [Effect.handleCloseMermaidEditor] }

/-- The prototype method `openMermaidEditor(x, y, state)`. -/
def protoOpenMermaidEditor (w : World) (x y : ℚ) (state : EditorState) : World :=
  let t := { w.tool with isEditing := true, editorPosition := some { x := x, y := y },
                         editorState := some state }
  if state.openMermaidEditor then
    { w with tool := t, effects := w.effects ++ [Effect.stateOpenMermaidEditor x y] }
  else
    { w with tool := t }

/-- The prototype method `closeMermaidEditor()`. -/
def protoCloseMermaidEditor (w : World) : World :=
  reset { w with tool := { w.tool with isEditing := false, editorState := none } }

/-- The call `this.openMermaidEditor(x, y, state)`: the injected callback, which
receives `x` as its `position`, when one shadows the prototype method. -/
def openMermaidEditor (w : World) (x y : ℚ) (state : EditorState) : World :=
  if w.tool.callbacksInjected then handleOpenMermaidEditor w x
  else protoOpenMermaidEditor w x y state

/-- The call `this.closeMermaidEditor()`. -/
def closeMermaidEditor (w : World) : World :=
  if w.tool.callbacksInjected then handleCloseMermaidEditor w
  else protoCloseMermaidEditor w

/-- The method `setEditorCallbacks(openCallback, closeCallback)`, called by `App`
with `handleOpenMermaidEditor` and `handleCloseMermaidEditor`. -/
def setEditorCallbacks (w : World) : World :=
  { w with tool := { w.tool with callbacksInjected := true } }

/-- The style literal used when the state has no `getCurrentStyle`. -/
def defaultStyle : Obj :=
  [("stroke", Val.str "#4f46e5"), ("fill", Val.str "transparent"),
   ("strokeWidth", Val.num 2), ("opacity", Val.num 100)]

/-- The preview element literal of `onMouseDown`. -/
def previewAt (x y : ℚ) (style : Obj) : Obj :=
  [("id", Val.str "mermaid-preview"),
   ("type", Val.str "mermaid"),
   ("x", Val.num x),
   ("y", Val.num y),
   ("width", Val.num 400),
   ("height", Val.num 300),
   ("stroke", prop style "stroke"),
   ("fill", prop style "fill"),
   ("strokeWidth", prop style "strokeWidth"),
   ("opacity", prop style "opacity"),
   ("mermaidCode", Val.str placeholderCode),
   ("theme", Val.str "default"),
   ("diagramType", Val.str "flowchart")]

/-- The method `onMouseDown(e, state)`. -/
def onMouseDown (w : World) (e : MouseEvent) (state : EditorState) : World :=
  let p := getCanvasCoordinates e state
  let style := state.getCurrentStyle.getD defaultStyle
  let t := { w.tool with isDrawing := true, startPoint := some p,
                         previewElement := some (previewAt p.x p.y style) }
  openMermaidEditor { w with tool := t } p.x p.y state

/-- The method `onMouseMove(e, state)`. -/
def onMouseMove (w : World) (e : MouseEvent) (state : EditorState) : World :=
  match w.tool.isDrawing, w.tool.startPoint with
  | true, some a =>
    let c := getCanvasCoordinates e state
    let minX := min a.x c.x
    let minY := min a.y c.y
    let maxX := max a.x c.x
    let maxY := max a.y c.y
    let box : Obj :=
      [("x", Val.num minX), ("y", Val.num minY),
       ("width", Val.num (max 200 (maxX - minX))),
       ("height", Val.num (max 150 (maxY - minY)))]
    let preview : Obj := w.tool.previewElement.getD [] ++ box
    { w with tool := { w.tool with previewElement := some preview } }
  | _, _ => w

/-- The method `onMouseUp(e, state)`. -/
def onMouseUp (w : World) (_e : MouseEvent) (_state : EditorState) : World :=
  if w.tool.isDrawing = false ∨ w.tool.previewElement.isNone then reset w
  else { w with tool := { w.tool with isDrawing := false } }

/-- The method `onKeyDown(e, state)`. -/
def onKeyDown (w : World) (e : KeyEvent) (_state : EditorState) : World :=
  if e.key = "Escape" then
    if w.tool.isEditing then closeMermaidEditor w
    else if w.tool.isDrawing then reset w
    else w
  else w

/-- The method `insertMermaidElement(elementData)`; `nid` is the string that
`nanoid()` returns. -/
def insertMermaidElement (w : World) (elementData : Obj) (nid : String) : World :=
  match w.tool.editorState with
  | none => w
  | some _ =>
    let finalElement :=
      w.tool.previewElement.getD [] ++ elementData ++ [("id", Val.str nid)]
    closeMermaidEditor
      { w with effects := w.effects ++ [Effect.addElement finalElement, Effect.commitChanges] }

/-! ## Sessions -/

/-- A call on the tool that is not `insertMermaidElement`. -/
inductive ToolEvent where
  | mouseDown (e : MouseEvent) (state : EditorState)
  | mouseMove (e : MouseEvent) (state : EditorState)
  | mouseUp (e : MouseEvent) (state : EditorState)
  | keyDown (e : KeyEvent) (state : EditorState)
  | reset

/-- The effect of one call. -/
def step (w : World) : ToolEvent → World
  | ToolEvent.mouseDown e s => onMouseDown w e s
  | ToolEvent.mouseMove e s => onMouseMove w e s
  | ToolEvent.mouseUp e s => onMouseUp w e s
  | ToolEvent.keyDown e s => onKeyDown w e s
  | ToolEvent.reset => reset w

/-- The effect of a sequence of calls, first call first. -/
def run (w : World) (evs : List ToolEvent) : World := evs.foldl step w

/-- A pointer gesture: `onMouseDown`, any number of `onMouseMove`, and possibly
one `onMouseUp`. -/
def gesture (w : World) (down : MouseEvent × EditorState)
    (moves : List (MouseEvent × EditorState)) (up : Option (MouseEvent × EditorState)) :
    World :=
  let w1 := onMouseDown w down.1 down.2
  let w2 := moves.foldl (fun acc m => onMouseMove acc m.1 m.2) w1
  match up with
  | none => w2
  | some u => onMouseUp w2 u.1 u.2

/-- Whether a call is a store mutation. -/
def Effect.isStoreCall : Effect → Bool
  | Effect.addElement _ => true
  | Effect.commitChanges => true
  | _ => false

/-- Modelled from the spec: the Canvas Store is not among the sources; its
`addElement` appends the element at the end of the elements sequence, and no other
call of the tool changes that sequence.  The elements after a series of calls. -/
def storeElements (elements : List Obj) : List Effect → List Obj
  | [] => elements
  | Effect.addElement el :: rest => storeElements (elements ++ [el]) rest
  | _ :: rest => storeElements elements rest

/-- The tool is Idle. -/
def MermaidTool.Idle (t : MermaidTool) : Prop :=
  t.isDrawing = false ∧ t.isEditing = false ∧ t.previewElement = none ∧
    t.startPoint = none ∧ t.editorState = none

/-- A pointer event at client position `(x, y)` over a target at the origin. -/
def pointerAt (x y : ℚ) : MouseEvent :=
  { clientX := x, clientY := y, rectLeft := 0, rectTop := 0 }

/-- A state with no scroll, zoom 1, no style method and no editor callback. -/
def plainState : EditorState :=
  { scrollX := 0, scrollY := 0, zoom := 1, getCurrentStyle := none,
    openMermaidEditor := false }

/-- The state `plainState` with an `openMermaidEditor` callback. -/
def callbackState : EditorState := { plainState with openMermaidEditor := true }

/-! ## Sequences of `createElement` calls -/

/-- One call `createElement(type, x, y, options)`, with what it reads from the clock
and the random generator. -/
structure CreateCall where
  entropy : Entropy
  type : String
  x : ℚ
  y : ℚ
  options : Obj

/-- The element that the call returns. -/
def CreateCall.result (c : CreateCall) : Obj :=
  createElement c.entropy c.type c.x c.y c.options

/-- The ids of the elements returned by a sequence of calls, in call order. -/
def createdIds (calls : List CreateCall) : List Val :=
  calls.map (fun c => prop c.result "id")

/-- The value of a string of decimal digits. -/
def decimalValue (cs : List Char) : Nat :=
  cs.foldl (fun acc c => 10 * acc + (c.toNat - 48)) 0

/-! ## Invariants of the tool -/

/-- What a pointer gesture establishes on a tool without injected callbacks. -/
structure Armed (s : EditorState) (w : World) : Prop where
  drawing : w.tool.isDrawing = true
  anchor : ∃ a, w.tool.startPoint = some a
  preview : ∃ p, w.tool.previewElement = some p
  editing : w.tool.isEditing = true
  state : w.tool.editorState = some s
  plain : w.tool.callbacksInjected = false

/-- The invariant of a tool without injected callbacks: `editorState` is set only
while the tool is editing and holds a preview. -/
structure Sound (w : World) : Prop where
  plain : w.tool.callbacksInjected = false
  editing : w.tool.editorState ≠ none →
    w.tool.isEditing = true ∧ w.tool.previewElement ≠ none

/-! ## Calls on the tool, `insertMermaidElement` included -/

/-- The payload that `handleInsert` of `MermaidPanel.jsx` passes to `onInsert`:
`{ mermaidCode: code, theme, diagramType, renderedSvg: previewSvg }`. -/
def handleInsertPayload (code theme diagramType previewSvg : String) : Obj :=
  [("mermaidCode", Val.str code), ("theme", Val.str theme),
   ("diagramType", Val.str diagramType), ("renderedSvg", Val.str previewSvg)]

/-- A call on the tool: one of the handlers or `reset`, or
`insertMermaidElement(elementData)` with the string that `nanoid()` returns. -/
inductive ToolCall where
  | event (ev : ToolEvent)
  | insert (elementData : Obj) (nid : String)

/-- The effect of one call on the tool. -/
def call (w : World) : ToolCall → World
  | ToolCall.event ev => step w ev
  | ToolCall.insert elementData nid => insertMermaidElement w elementData nid

/-- The effect of a sequence of calls on the tool, first call first. -/
def calls (w : World) (cs : List ToolCall) : World := cs.foldl call w

/-! ## `src/App.jsx`: select-all -/

/-- What `handleSelectAll` reads of the current canvas. -/
structure Canvas where
  elements : List Obj

/-- A call on the editor store. -/
inductive EditorAction where
  | setCurrentTool (tool : String)
  | setSelectedElements (ids : List Val)

/-- The callback `handleSelectAll` of `App`: the store calls it makes, in order,
for the current canvas (`none` when `currentCanvas` is null). -/
def handleSelectAll (currentCanvas : Option Canvas) : List EditorAction :=
  EditorAction.setCurrentTool "select" ::
    (match currentCanvas with
     | some canvas =>
       if canvas.elements.length > 0 then
         [EditorAction.setSelectedElements (canvas.elements.map (fun el => prop el "id"))]
       else []
     | none => [])

/-- The ids of the elements of a canvas, in paint order. -/
def elementIds (canvas : Canvas) : List Val :=
  canvas.elements.map (fun el => prop el "id")

/-- The editor store (`./store`) is not among the sources, so it is a parameter: a
state type with the two reads and the two actions that `handleSelectAll` uses.
What is assumed of the actions is stated where it is used. -/
structure StoreApi (σ : Type) where
  currentTool : σ → String
  selectedElementIds : σ → List Val
  setCurrentTool : String → σ → σ
  setSelectedElements : List Val → σ → σ

/-- One call on a store. -/
def StoreApi.perform {σ : Type} (api : StoreApi σ) (s : σ) : EditorAction → σ
  | EditorAction.setCurrentTool tool => api.setCurrentTool tool s
  | EditorAction.setSelectedElements ids => api.setSelectedElements ids s

/-- The store after a series of calls. -/
def StoreApi.performAll {σ : Type} (api : StoreApi σ) (s : σ)
    (actions : List EditorAction) : σ :=
  actions.foldl api.perform s

/-- A store state that is just the current tool and the selection. -/
structure EditorStore where
  currentTool : String
  selectedElementIds : List Val

/-- One store that meets what is assumed of a store: each action replaces the field
it names. -/
def plainStore : StoreApi EditorStore :=
  { currentTool := fun s => s.currentTool
    selectedElementIds := fun s => s.selectedElementIds
    setCurrentTool := fun tool s => { s with currentTool := tool }
    setSelectedElements := fun ids s => { s with selectedElementIds := ids } }

/-! ## `src/tools/index.js` and the tool reference of `App` -/

/-- The keys of the registry `tools`; each holds one shared instance. -/
inductive ToolName where
  | select
  | rectangle
  | ellipse
  | arrow
  | draw
  | text
  | eraser
  | mermaid
  deriving DecidableEq

/-- The lookup `tools[toolName]` for a tool name (names inherited from
`Object.prototype` are not tool names and are left out). -/
def toolNamed (toolName : String) : Option ToolName :=
  if toolName = "select" then some ToolName.select
  else if toolName = "rectangle" then some ToolName.rectangle
  else if toolName = "ellipse" then some ToolName.ellipse
  else if toolName = "arrow" then some ToolName.arrow
  else if toolName = "draw" then some ToolName.draw
  else if toolName = "text" then some ToolName.text
  else if toolName = "eraser" then some ToolName.eraser
  else if toolName = "mermaid" then some ToolName.mermaid
  else none

/-- The function `getTool(toolName)`: `tools[toolName] || tools.select`. -/
def getTool (toolName : String) : ToolName := (toolNamed toolName).getD ToolName.select

/-- The tool state of `App`: the current tool name of the editor store, the
reference `currentToolInstanceRef.current` (which registry instance it points to),
and the world of the registry's `MermaidTool` instance.  The classes of the other
seven tools are not among the sources; their instances carry no modelled state. -/
structure Session where
  currentTool : String
  currentToolInstanceRef : Option ToolName
  world : World

/-- The effect `currentToolInstanceRef.current = getTool(currentTool)`. -/
def updateToolRef (s : Session) : Session :=
  { s with currentToolInstanceRef := some (getTool s.currentTool) }

/-- The effect that sets up the editor callbacks when the mermaid tool is active:
when the referenced instance is the `MermaidTool`, `setEditorCallbacks` and the
direct assignments both install the two handlers on it. -/
def setUpMermaidCallbacks (s : Session) : Session :=
  if s.currentTool = "mermaid" ∧ s.currentToolInstanceRef = some ToolName.mermaid then
    { s with world := setEditorCallbacks s.world }
  else s

/-- A tool switch: the store's current tool becomes `toolName`, then the two
effects of `App` that depend on `currentTool` run in source order. -/
def switchTool (s : Session) (toolName : String) : Session :=
  setUpMermaidCallbacks (updateToolRef { s with currentTool := toolName })

/-- A session in which the mermaid tool is active, has its callbacks installed and
has received `onMouseDown` at `(10, 20)`. -/
def drawingSession : Session :=
  { currentTool := "mermaid", currentToolInstanceRef := some ToolName.mermaid,
    world := onMouseDown (setEditorCallbacks World.new) (pointerAt 10 20) plainState }

/-! ## `renderPreview` of `MermaidPanel.jsx` and `src/utils/mermaidRenderer.js` -/

/-- A thrown error, as far as the code reads it. -/
structure JsError where
  name : String
  message : String

/-- A call on the `mermaid` library: `mermaid.initialize(config)` or
`mermaid.render(id, code)`. -/
inductive MermaidCall where
  | configure (config : Obj)
  | render (id code : String)

/-- The outcome of `await mermaid.render(id, code)`: the `svg` of the result, or the
error that the call throws. -/
abbrev RenderService := String → String → Except JsError String

/-- The characters that `String.prototype.trim` removes: the white space and line
terminator code points of ECMAScript. -/
def isWhiteSpace (c : Char) : Bool :=
  [0x9, 0xA, 0xB, 0xC, 0xD, 0x20, 0xA0, 0x1680, 0x2028, 0x2029, 0x202F, 0x205F, 0x3000,
    0xFEFF].contains c.toNat || (decide (0x2000 ≤ c.toNat) && decide (c.toNat ≤ 0x200A))

/-- The test `!code.trim()`: every character of `code` is white space. -/
def isBlank (code : String) : Bool := code.data.all isWhiteSpace

/-- The states `previewSvg` and `isRendering` of the panel. -/
structure PanelView where
  previewSvg : String
  isRendering : Bool

/-- The template literal that `renderPreview` shows for an error with the given
message. -/
def errorMarkup (message : String) : String :=
  "\n        <div style=\x22color: #dc2626; padding: 20px; font-family: monospace; background: #fef2f2; border: 1px solid #fecaca; border-radius: 8px;\x22>\n          <strong>Error rendering diagram:</strong><br/>\n          "
    ++ message ++ "\n        </div>\n      "

/-- The function `renderPreview` of the panel, for the `code` and the states it
closes over: how it completes (it has no `throw` outside its `try`), the states
afterwards, and the calls it makes on the library. -/
def renderPreview (render : RenderService) (code : String) (view : PanelView) :
    Except JsError PanelView × List MermaidCall :=
  if isBlank code then
    (Except.ok { view with previewSvg := "" }, [])
  else
    let rendering : PanelView := { view with isRendering := true }
    let shown : PanelView :=
      match render "mermaid-preview" code with
      | Except.ok svg => { rendering with previewSvg := svg }
      | Except.error error => { rendering with previewSvg := errorMarkup error.message }
    (Except.ok { shown with isRendering := false },
      [MermaidCall.render "mermaid-preview" code])

/-- The variables of one Catppuccin entry. -/
def themeVariables (primaryColor primaryTextColor primaryBorderColor lineColor
    clusterBkg clusterBorder : String) : Val :=
  Val.obj
    [("primaryColor", Val.str primaryColor),
     ("primaryTextColor", Val.str primaryTextColor),
     ("primaryBorderColor", Val.str primaryBorderColor),
     ("lineColor", Val.str lineColor),
     ("arrowColor", Val.str lineColor),
     ("clusterBkg", Val.str clusterBkg),
     ("clusterBorder", Val.str clusterBorder),
     ("nodeBorder", Val.str lineColor),
     ("fontFamily", Val.str "JetBrains Mono, monospace")]

/-- The constant `CATPPUCCIN_THEMES` of `MermaidPanel.jsx`. -/
def catppuccinThemes : Obj :=
  [("catppuccin-mocha", Val.obj [("theme", Val.str "base"),
      ("themeVariables",
        themeVariables "#1e1e2e" "#cdd6f4" "#45475a" "#cba6f7" "#313244" "#45475a")]),
   ("catppuccin-latte", Val.obj [("theme", Val.str "base"),
      ("themeVariables",
        themeVariables "#eff1f5" "#4c4f69" "#bcc0cc" "#8839ef" "#e6e9ef" "#dce0e8")]),
   ("catppuccin-macchiato", Val.obj [("theme", Val.str "base"),
      ("themeVariables",
        themeVariables "#24273a" "#cad3f5" "#494d64" "#c6a0f6" "#363a4f" "#5b6078")]),
   ("catppuccin-frappe", Val.obj [("theme", Val.str "base"),
      ("themeVariables",
        themeVariables "#303446" "#c6d0f5" "#414559" "#ca9ee6" "#414559" "#51576d")])]

/-- The names that the module `MermaidPanel.jsx` exports: its one export is
`export default function MermaidPanel`. -/
def mermaidPanelExports : List String := ["default"]

/-- The binding `CATPPUCCIN_THEMES` that `mermaidRenderer.js` imports by name from
`MermaidPanel.jsx`: the constant when the module exports that name, and undefined
(`none`) otherwise, as a bundler binds a missing export. -/
def importedCatppuccinThemes : Option Obj :=
  if mermaidPanelExports.contains "CATPPUCCIN_THEMES" then some catppuccinThemes else none

/-- The error of reading a property of `undefined`; the message text is the
engine's. -/
def undefinedReadError : JsError :=
  { name := "TypeError", message := "Cannot read properties of undefined" }

/-- The `config` that `renderMermaidToSvg` builds from a themes table: the three
fixed options, then `Object.assign(config, table[theme])` when the table has a
truthy entry for `theme` (the entries are objects), else `config.theme = theme`. -/
def rendererConfig (table : Obj) (theme : String) : Obj :=
  let config : Obj :=
    [("startOnLoad", Val.bool false), ("securityLevel", Val.str "loose"),
     ("fontFamily", Val.str "JetBrains Mono, monospace")]
  if truthy (prop table theme) then
    match prop table theme with
    | Val.obj fields => config ++ fields
    | _ => config
  else config ++ [("theme", Val.str theme)]

/-- The function `renderMermaidToSvg(code, theme)` for a given binding of
`CATPPUCCIN_THEMES`: the result or the rethrown error, and the calls made on the
library. -/
def renderMermaidToSvgWith (themes : Option Obj) (render : RenderService)
    (code theme : String) : Except JsError String × List MermaidCall :=
  if isBlank code then (Except.ok "", [])
  else
    match themes with
    | none => (Except.error undefinedReadError, [])
    | some table =>
      let config := rendererConfig table theme
      let made := [MermaidCall.configure config, MermaidCall.render "mermaid-render" code]
      match render "mermaid-render" code with
      | Except.ok svg => (Except.ok svg, made)
      | Except.error error => (Except.error error, made)

/-- The function `renderMermaidToSvg(code, theme)` of `mermaidRenderer.js`, with the
binding its import gives it. -/
def renderMermaidToSvg (render : RenderService) (code theme : String) :
    Except JsError String × List MermaidCall :=
  renderMermaidToSvgWith importedCatppuccinThemes render code theme

/-- A render service that always returns the same image. -/
def constantService (svg : String) : RenderService := fun _ _ => Except.ok svg

/-- A render service that always fails with the same message. -/
def failingService (message : String) : RenderService :=
  fun _ _ => Except.error { name := "Error", message := message }

/-! ## Reading objects -/

theorem own_append (a b : Obj) (k : String) :
    own (a ++ b) k = (own b k).orElse (fun _ => own a k) := by
  induction a with
  | nil => cases h : own b k <;> simp [own, h]
  | cons kv rest ih =>
    obtain ⟨k1, v⟩ := kv
    cases hb : own b k <;> simp [own, ih, hb]

theorem own_append_of_none (a b : Obj) (k : String) (h : own b k = none) :
    own (a ++ b) k = own a k := by
  rw [own_append, h]; rfl

theorem own_append_of_some (a b : Obj) (k : String) (v : Val) (h : own b k = some v) :
    own (a ++ b) k = some v := by
  rw [own_append, h]; rfl

/-! ## `reset` -/

/-- C8: `reset` clears `isDrawing`, `isEditing`, `previewElement`, `startPoint` and
`editorState` in every tool state, Idle included, and resetting twice is the same
as resetting once. -/
theorem reset_idempotent (t : MermaidTool) :
    t.reset.isDrawing = false ∧ t.reset.isEditing = false ∧
      t.reset.previewElement = none ∧ t.reset.startPoint = none ∧
      t.reset.editorState = none ∧ t.reset.reset = t.reset ∧
      MermaidTool.new.reset = MermaidTool.new := by
  refine ⟨rfl, rfl, rfl, rfl, rfl, rfl, rfl⟩

/-! ## `createElement` -/

/-- C9: with `width`, `height`, `mermaidCode`, `renderedSvg`, `theme`,
`diagramType` and `mermaidConfig` absent from `options`,
`createElement('mermaid', x, y, options)` has type `mermaid`, the given `x` and `y`,
width 400, height 300, the placeholder source, an empty rendered image, theme
`default`, diagram type `flowchart` and an empty configuration. -/
theorem createElement_mermaid_defaults (r : Entropy) (x y : ℚ) (options : Obj)
    (hw : own options "width" = none) (hh : own options "height" = none)
    (hc : own options "mermaidCode" = none) (hs : own options "renderedSvg" = none)
    (ht : own options "theme" = none) (hd : own options "diagramType" = none)
    (hm : own options "mermaidConfig" = none) :
    own (createElement r "mermaid" x y options) "type" = some (Val.str "mermaid") ∧
      own (createElement r "mermaid" x y options) "x" = some (Val.num x) ∧
      own (createElement r "mermaid" x y options) "y" = some (Val.num y) ∧
      own (createElement r "mermaid" x y options) "width" = some (Val.num 400) ∧
      own (createElement r "mermaid" x y options) "height" = some (Val.num 300) ∧
      own (createElement r "mermaid" x y options) "mermaidCode" =
        some (Val.str "graph TD\n  A[Start] --> B\x7bDecision\x7d") ∧
      own (createElement r "mermaid" x y options) "renderedSvg" = some (Val.str "") ∧
      own (createElement r "mermaid" x y options) "theme" = some (Val.str "default") ∧
      own (createElement r "mermaid" x y options) "diagramType" =
        some (Val.str "flowchart") ∧
      own (createElement r "mermaid" x y options) "mermaidConfig" = some (Val.obj []) := by
  simp [createElement, baseElement, own, prop, jsOr, truthy, placeholderCode,
    hw, hh, hc, hs, ht, hd, hm]

theorem createElement_mermaid_defaults_witness :
    own (createElement ⟨1700000000000, "k3j9x0q1z", 12345⟩ "mermaid" 10 20
        [("stroke", Val.str "#ff0000")]) "width" = some (Val.num 400) ∧
      own (createElement ⟨1700000000000, "k3j9x0q1z", 12345⟩ "mermaid" 10 20
        [("stroke", Val.str "#ff0000")]) "mermaidConfig" = some (Val.obj []) :=
  have h := createElement_mermaid_defaults ⟨1700000000000, "k3j9x0q1z", 12345⟩ 10 20
    [("stroke", Val.str "#ff0000")] (by simp [own]) (by simp [own]) (by simp [own])
    (by simp [own]) (by simp [own]) (by simp [own]) (by simp [own])
  ⟨h.2.2.2.1, h.2.2.2.2.2.2.2.2.2⟩

/-! ## Pointer handlers -/

theorem onMouseDown_isDrawing (w : World) (e : MouseEvent) (s : EditorState) :
    (onMouseDown w e s).tool.isDrawing = true := by
  unfold onMouseDown openMermaidEditor handleOpenMermaidEditor protoOpenMermaidEditor
  dsimp only
  split <;> [rfl; (split <;> rfl)]

theorem onMouseDown_startPoint (w : World) (e : MouseEvent) (s : EditorState) :
    (onMouseDown w e s).tool.startPoint = some (getCanvasCoordinates e s) := by
  unfold onMouseDown openMermaidEditor handleOpenMermaidEditor protoOpenMermaidEditor
  dsimp only
  split <;> [rfl; (split <;> rfl)]

theorem onMouseDown_previewElement (w : World) (e : MouseEvent) (s : EditorState) :
    (onMouseDown w e s).tool.previewElement =
      some (previewAt (getCanvasCoordinates e s).x (getCanvasCoordinates e s).y
        (s.getCurrentStyle.getD defaultStyle)) := by
  unfold onMouseDown openMermaidEditor handleOpenMermaidEditor protoOpenMermaidEditor
  dsimp only
  split <;> [rfl; (split <;> rfl)]

theorem onMouseDown_callbacksInjected (w : World) (e : MouseEvent) (s : EditorState) :
    (onMouseDown w e s).tool.callbacksInjected = w.tool.callbacksInjected := by
  unfold onMouseDown openMermaidEditor handleOpenMermaidEditor protoOpenMermaidEditor
  dsimp only
  split <;> [rfl; (split <;> rfl)]

/-- The preview after `onMouseMove` in the Drawing state. -/
theorem onMouseMove_drawing (w : World) (e : MouseEvent) (s : EditorState) (a : Point)
    (p : Obj) (hd : w.tool.isDrawing = true) (ha : w.tool.startPoint = some a)
    (hp : w.tool.previewElement = some p) :
    onMouseMove w e s =
      { w with tool := { w.tool with previewElement := some (p ++
        [("x", Val.num (min a.x (getCanvasCoordinates e s).x)),
         ("y", Val.num (min a.y (getCanvasCoordinates e s).y)),
         ("width", Val.num (max 200 (max a.x (getCanvasCoordinates e s).x -
            min a.x (getCanvasCoordinates e s).x))),
         ("height", Val.num (max 150 (max a.y (getCanvasCoordinates e s).y -
            min a.y (getCanvasCoordinates e s).y)))]) } } := by
  unfold onMouseMove
  rw [hd, ha, hp]
  rfl

/-- A gesture of pointer-down and moves leaves the tool drawing, anchored at the
point of the pointer-down, with a preview. -/
theorem gesture_drawing (w : World) (down : MouseEvent × EditorState)
    (moves : List (MouseEvent × EditorState)) :
    (gesture w down moves none).tool.isDrawing = true ∧
      (gesture w down moves none).tool.startPoint =
        some (getCanvasCoordinates down.1 down.2) ∧
      ∃ p : Obj, (gesture w down moves none).tool.previewElement = some p := by
  have hmoves : ∀ (ms : List (MouseEvent × EditorState)) (v : World) (a : Point),
      v.tool.isDrawing = true → v.tool.startPoint = some a →
      (∃ p : Obj, v.tool.previewElement = some p) →
      (ms.foldl (fun acc m => onMouseMove acc m.1 m.2) v).tool.isDrawing = true ∧
        (ms.foldl (fun acc m => onMouseMove acc m.1 m.2) v).tool.startPoint = some a ∧
        ∃ p : Obj,
          (ms.foldl (fun acc m => onMouseMove acc m.1 m.2) v).tool.previewElement =
            some p := by
    intro ms
    induction ms with
    | nil => intro v a hd ha hp; exact ⟨hd, ha, hp⟩
    | cons m rest ih =>
      intro v a hd ha hp
      obtain ⟨p, hp⟩ := hp
      have hstep := onMouseMove_drawing v m.1 m.2 a p hd ha hp
      exact ih (onMouseMove v m.1 m.2) a (by rw [hstep]; exact hd) (by rw [hstep]; exact ha)
        ⟨_, by rw [hstep]⟩
  exact hmoves moves _ _ (onMouseDown_isDrawing w down.1 down.2)
    (onMouseDown_startPoint w down.1 down.2) ⟨_, onMouseDown_previewElement w down.1 down.2⟩

/-- C7: in every Drawing state with anchor `a`, `onMouseMove` at the point `c` of its
event sets the box of the preview to `x = min a.x c.x`, `y = min a.y c.y`,
`width = max 200 |c.x - a.x|`, `height = max 150 |c.y - a.y|`, keeps every other
preview field and keeps the anchor; the anchor is the point of `onMouseDown`, also
after earlier moves of the drag; the drag in the opposite direction gives the same
box; `(300,300) -> (100,100)` gives `(100, 100, 200, 200)`, a further move to
`(500,500)` gives `(300, 300, 200, 200)`, and `(100,100) -> (103,103)` gives width
200, height 150.  The zoom of every state is not 0. -/
theorem onMouseMove_box :
    (∀ (w : World) (e : MouseEvent) (s : EditorState) (a : Point) (p : Obj),
      w.tool.isDrawing = true → w.tool.startPoint = some a →
      w.tool.previewElement = some p → s.zoom ≠ 0 →
      ∃ q : Obj,
        (onMouseMove w e s).tool.previewElement = some q ∧
        own q "x" = some (Val.num (min a.x (getCanvasCoordinates e s).x)) ∧
        own q "y" = some (Val.num (min a.y (getCanvasCoordinates e s).y)) ∧
        own q "width" = some (Val.num (max 200 |(getCanvasCoordinates e s).x - a.x|)) ∧
        own q "height" = some (Val.num (max 150 |(getCanvasCoordinates e s).y - a.y|)) ∧
        (∀ k : String, k ≠ "x" → k ≠ "y" → k ≠ "width" → k ≠ "height" →
          own q k = own p k) ∧
        (onMouseMove w e s).tool.startPoint = some a ∧
        (onMouseMove w e s).tool.isDrawing = true) ∧
    (∀ (w : World) (down : MouseEvent × EditorState)
      (moves : List (MouseEvent × EditorState)) (e : MouseEvent) (s : EditorState),
      down.2.zoom ≠ 0 → (∀ m ∈ moves, m.2.zoom ≠ 0) → s.zoom ≠ 0 →
      ∃ q : Obj,
        (onMouseMove (gesture w down moves none) e s).tool.previewElement = some q ∧
        own q "x" = some (Val.num
          (min (getCanvasCoordinates down.1 down.2).x (getCanvasCoordinates e s).x)) ∧
        own q "y" = some (Val.num
          (min (getCanvasCoordinates down.1 down.2).y (getCanvasCoordinates e s).y)) ∧
        own q "width" = some (Val.num (max 200
          |(getCanvasCoordinates e s).x - (getCanvasCoordinates down.1 down.2).x|)) ∧
        own q "height" = some (Val.num (max 150
          |(getCanvasCoordinates e s).y - (getCanvasCoordinates down.1 down.2).y|))) ∧
    (∀ (w1 w2 : World) (e1 e2 : MouseEvent) (s1 s2 : EditorState) (p1 p2 : Obj),
      w1.tool.isDrawing = true → w1.tool.startPoint = some (getCanvasCoordinates e1 s1) →
      w1.tool.previewElement = some p1 →
      w2.tool.isDrawing = true → w2.tool.startPoint = some (getCanvasCoordinates e2 s2) →
      w2.tool.previewElement = some p2 → s1.zoom ≠ 0 → s2.zoom ≠ 0 →
      ∃ q r : Obj,
        (onMouseMove w1 e2 s2).tool.previewElement = some q ∧
        (onMouseMove w2 e1 s1).tool.previewElement = some r ∧
        own r "x" = own q "x" ∧ own r "y" = own q "y" ∧
        own r "width" = own q "width" ∧ own r "height" = own q "height") ∧
    ((onMouseMove (onMouseDown World.new (pointerAt 300 300) plainState)
        (pointerAt 100 100) plainState).tool.previewElement.map
        (fun q => (own q "x", own q "y", own q "width", own q "height")) =
      some (some (Val.num 100), some (Val.num 100), some (Val.num 200),
        some (Val.num 200))) ∧
    ((onMouseMove (onMouseMove (onMouseDown World.new (pointerAt 300 300) plainState)
        (pointerAt 100 100) plainState) (pointerAt 500 500) plainState
        ).tool.previewElement.map
        (fun q => (own q "x", own q "y", own q "width", own q "height")) =
      some (some (Val.num 300), some (Val.num 300), some (Val.num 200),
        some (Val.num 200))) ∧
    ((onMouseMove (onMouseDown World.new (pointerAt 100 100) plainState)
        (pointerAt 103 103) plainState).tool.previewElement.map
        (fun q => (own q "x", own q "y", own q "width", own q "height")) =
      some (some (Val.num 100), some (Val.num 100), some (Val.num 200),
        some (Val.num 150))) := by
  have hbox : ∀ (w : World) (e : MouseEvent) (s : EditorState) (a : Point) (p : Obj),
      w.tool.isDrawing = true → w.tool.startPoint = some a →
      w.tool.previewElement = some p →
      ∃ q : Obj,
        (onMouseMove w e s).tool.previewElement = some q ∧
        own q "x" = some (Val.num (min a.x (getCanvasCoordinates e s).x)) ∧
        own q "y" = some (Val.num (min a.y (getCanvasCoordinates e s).y)) ∧
        own q "width" = some (Val.num (max 200 |(getCanvasCoordinates e s).x - a.x|)) ∧
        own q "height" = some (Val.num (max 150 |(getCanvasCoordinates e s).y - a.y|)) ∧
        (∀ k : String, k ≠ "x" → k ≠ "y" → k ≠ "width" → k ≠ "height" →
          own q k = own p k) ∧
        (onMouseMove w e s).tool.startPoint = some a ∧
        (onMouseMove w e s).tool.isDrawing = true := by
    intro w e s a p hd ha hp
    have hstep := onMouseMove_drawing w e s a p hd ha hp
    refine ⟨_, by rw [hstep], ?_, ?_, ?_, ?_, ?_, by rw [hstep]; exact ha,
      by rw [hstep]; exact hd⟩
    · rw [own_append_of_some]; simp [own]
    · rw [own_append_of_some]; simp [own]
    · rw [own_append_of_some]; simp [own, max_sub_min_eq_abs]
    · rw [own_append_of_some]; simp [own, max_sub_min_eq_abs]
    · intro k hx hy hw hh
      rw [own_append_of_none]
      simp [own, Ne.symm hx, Ne.symm hy, Ne.symm hw, Ne.symm hh]
  refine ⟨?_, ?_, ?_, ?_, ?_, ?_⟩
  · intro w e s a p hd ha hp _
    exact hbox w e s a p hd ha hp
  · intro w down moves e s _ _ _
    obtain ⟨hd, ha, p, hp⟩ := gesture_drawing w down moves
    obtain ⟨q, hq, hx, hy, hw, hh, _⟩ := hbox _ e s _ p hd ha hp
    exact ⟨q, hq, hx, hy, hw, hh⟩
  · intro w1 w2 e1 e2 s1 s2 p1 p2 hd1 ha1 hp1 hd2 ha2 hp2 _ _
    obtain ⟨q, hq, hqx, hqy, hqw, hqh, _⟩ := hbox w1 e2 s2 _ p1 hd1 ha1 hp1
    obtain ⟨r, hr, hrx, hry, hrw, hrh, _⟩ := hbox w2 e1 s1 _ p2 hd2 ha2 hp2
    refine ⟨q, r, hq, hr, ?_, ?_, ?_, ?_⟩
    · rw [hrx, hqx, min_comm]
    · rw [hry, hqy, min_comm]
    · rw [hrw, hqw, abs_sub_comm]
    · rw [hrh, hqh, abs_sub_comm]
  · rw [onMouseMove_drawing _ _ _ _ _ (onMouseDown_isDrawing _ _ _)
      (onMouseDown_startPoint _ _ _) (onMouseDown_previewElement _ _ _)]
    simp [own, getCanvasCoordinates, pointerAt, plainState]
    norm_num
  · have h1 := onMouseMove_drawing (onMouseDown World.new (pointerAt 300 300) plainState)
      (pointerAt 100 100) plainState _ _ (onMouseDown_isDrawing _ _ _)
      (onMouseDown_startPoint _ _ _) (onMouseDown_previewElement _ _ _)
    rw [onMouseMove_drawing _ (pointerAt 500 500) plainState
      (getCanvasCoordinates (pointerAt 300 300) plainState) _
      (by rw [h1]; exact onMouseDown_isDrawing _ _ _)
      (by rw [h1]; exact onMouseDown_startPoint _ _ _) (by rw [h1])]
    simp [own, getCanvasCoordinates, pointerAt, plainState]
    norm_num
  · rw [onMouseMove_drawing _ _ _ _ _ (onMouseDown_isDrawing _ _ _)
      (onMouseDown_startPoint _ _ _) (onMouseDown_previewElement _ _ _)]
    simp [own, getCanvasCoordinates, pointerAt, plainState]
    norm_num

theorem onMouseMove_box_witness :
    ∃ q : Obj,
      (onMouseMove (gesture World.new (pointerAt 300 300, plainState)
        [(pointerAt 100 100, plainState)] none) (pointerAt 500 500)
        plainState).tool.previewElement = some q ∧
      own q "x" = some (Val.num
        (min (getCanvasCoordinates (pointerAt 300 300) plainState).x
          (getCanvasCoordinates (pointerAt 500 500) plainState).x)) ∧
      own q "width" = some (Val.num (max 200
        |(getCanvasCoordinates (pointerAt 500 500) plainState).x -
          (getCanvasCoordinates (pointerAt 300 300) plainState).x|)) :=
  have hz : plainState.zoom ≠ 0 := by simp [plainState]
  match onMouseMove_box.2.1 World.new (pointerAt 300 300, plainState)
    [(pointerAt 100 100, plainState)] (pointerAt 500 500) plainState hz
    (by
      intro m hm
      simp only [List.mem_singleton] at hm
      subst hm
      exact hz) hz with
  | ⟨q, hq, hx, _, hw, _⟩ => ⟨q, hq, hx, hw⟩

theorem onMouseDown_editorState (w : World) (e : MouseEvent) (s : EditorState)
    (hinj : w.tool.callbacksInjected = false) :
    (onMouseDown w e s).tool.editorState = some s ∧
      (onMouseDown w e s).tool.isEditing = true := by
  cases hs : s.openMermaidEditor <;>
    simp [onMouseDown, openMermaidEditor, protoOpenMermaidEditor, hinj, hs]

/-- The calls made by `onMouseDown`. -/
theorem onMouseDown_effects (w : World) (e : MouseEvent) (s : EditorState) :
    (onMouseDown w e s).effects = w.effects ++
      (if w.tool.callbacksInjected then
        [Effect.handleOpenMermaidEditor (getCanvasCoordinates e s).x]
       else if s.openMermaidEditor then
        [Effect.stateOpenMermaidEditor (getCanvasCoordinates e s).x
          (getCanvasCoordinates e s).y]
       else []) := by
  unfold onMouseDown openMermaidEditor handleOpenMermaidEditor protoOpenMermaidEditor
  cases hinj : w.tool.callbacksInjected <;> cases hs : s.openMermaidEditor <;> simp [hinj, hs]

theorem onMouseDown_armed (w : World) (e : MouseEvent) (s : EditorState)
    (hinj : w.tool.callbacksInjected = false) : Armed s (onMouseDown w e s) :=
  { drawing := onMouseDown_isDrawing w e s
    anchor := ⟨_, onMouseDown_startPoint w e s⟩
    preview := ⟨_, onMouseDown_previewElement w e s⟩
    editing := (onMouseDown_editorState w e s hinj).2
    state := (onMouseDown_editorState w e s hinj).1
    plain := by rw [onMouseDown_callbacksInjected, hinj] }

theorem onMouseMove_armed (s : EditorState) (w : World) (e : MouseEvent) (s2 : EditorState)
    (h : Armed s w) :
    Armed s (onMouseMove w e s2) ∧ (onMouseMove w e s2).effects = w.effects := by
  obtain ⟨a, ha⟩ := h.anchor
  obtain ⟨p, hp⟩ := h.preview
  rw [onMouseMove_drawing w e s2 a p h.drawing ha hp]
  exact ⟨{ drawing := h.drawing, anchor := ⟨a, ha⟩, preview := ⟨_, rfl⟩,
           editing := h.editing, state := h.state, plain := h.plain }, rfl⟩

theorem moves_armed (s : EditorState) (moves : List (MouseEvent × EditorState)) :
    ∀ w : World, Armed s w →
      Armed s (moves.foldl (fun acc m => onMouseMove acc m.1 m.2) w) ∧
      (moves.foldl (fun acc m => onMouseMove acc m.1 m.2) w).effects = w.effects := by
  induction moves with
  | nil => intro w h; exact ⟨h, rfl⟩
  | cons m rest ih =>
    intro w h
    have h1 := onMouseMove_armed s w m.1 m.2 h
    have h2 := ih _ h1.1
    exact ⟨h2.1, by rw [List.foldl_cons, h2.2, h1.2]⟩

/-- After a pointer gesture on a tool without injected callbacks the tool holds a
preview and the state of the pointer-down, and is editing. -/
theorem gesture_editing (w : World) (down : MouseEvent × EditorState)
    (moves : List (MouseEvent × EditorState)) (up : Option (MouseEvent × EditorState))
    (hinj : w.tool.callbacksInjected = false) :
    (∃ p, (gesture w down moves up).tool.previewElement = some p) ∧
      (gesture w down moves up).tool.editorState = some down.2 ∧
      (gesture w down moves up).tool.isEditing = true ∧
      (gesture w down moves up).tool.callbacksInjected = false := by
  have h := (moves_armed down.2 moves _ (onMouseDown_armed w down.1 down.2 hinj)).1
  cases up with
  | none => exact ⟨h.preview, h.state, h.editing, h.plain⟩
  | some u =>
    obtain ⟨p, hp⟩ := h.preview
    have hu : gesture w down moves (some u) =
        { (moves.foldl (fun acc m => onMouseMove acc m.1 m.2)
            (onMouseDown w down.1 down.2)) with
          tool := { (moves.foldl (fun acc m => onMouseMove acc m.1 m.2)
            (onMouseDown w down.1 down.2)).tool with isDrawing := false } } := by
      simp [gesture, onMouseUp, h.drawing, hp]
    rw [hu]
    exact ⟨⟨p, hp⟩, h.state, h.editing, h.plain⟩

/-- The method `insertMermaidElement` on an editing tool without injected callbacks. -/
theorem insertMermaidElement_editing (w : World) (st : EditorState) (p payload : Obj)
    (nid : String) (hinj : w.tool.callbacksInjected = false)
    (hst : w.tool.editorState = some st) (hp : w.tool.previewElement = some p) :
    (insertMermaidElement w payload nid).effects = w.effects ++
        [Effect.addElement (p ++ payload ++ [("id", Val.str nid)]), Effect.commitChanges] ∧
      (insertMermaidElement w payload nid).tool.Idle := by
  unfold insertMermaidElement
  rw [hst]
  simp only [closeMermaidEditor, hinj, hp, Option.getD_some]
  exact ⟨rfl, rfl, rfl, rfl, rfl, rfl⟩

/-- C1: on a tool without injected callbacks, after `onMouseDown`, any `onMouseMove`s
and possibly `onMouseUp`, `insertMermaidElement(payload)` calls `addElement` once and
then `commitChanges` once; the added element has the value of the payload at every
key of the payload other than `id`, the value of the preview at every other key,
and the generated id at `id`; afterwards the tool is Idle. -/
theorem insertMermaidElement_commits (w : World) (down : MouseEvent × EditorState)
    (moves : List (MouseEvent × EditorState)) (up : Option (MouseEvent × EditorState))
    (payload : Obj) (nid : String) (hinj : w.tool.callbacksInjected = false) :
    ∃ preview final : Obj,
      (gesture w down moves up).tool.previewElement = some preview ∧
      (insertMermaidElement (gesture w down moves up) payload nid).effects =
        (gesture w down moves up).effects ++
          [Effect.addElement final, Effect.commitChanges] ∧
      (∀ (k : String) (v : Val), k ≠ "id" → own payload k = some v →
        own final k = some v) ∧
      (∀ k : String, k ≠ "id" → own payload k = none → own final k = own preview k) ∧
      own final "id" = some (Val.str nid) ∧
      (insertMermaidElement (gesture w down moves up) payload nid).tool.isDrawing = false ∧
      (insertMermaidElement (gesture w down moves up) payload nid).tool.isEditing = false ∧
      (insertMermaidElement (gesture w down moves up) payload nid).tool.previewElement =
        none ∧
      (insertMermaidElement (gesture w down moves up) payload nid).tool.editorState =
        none := by
  obtain ⟨⟨p, hp⟩, hst, _, hplain⟩ := gesture_editing w down moves up hinj
  have h := insertMermaidElement_editing _ down.2 p payload nid hplain hst hp
  refine ⟨p, p ++ payload ++ [("id", Val.str nid)], hp, h.1, ?_, ?_, ?_,
    h.2.1, h.2.2.1, h.2.2.2.1, h.2.2.2.2.2⟩
  · intro k v hk hv
    rw [own_append_of_none _ _ _ (by simp [own, Ne.symm hk]), own_append_of_some _ _ _ v hv]
  · intro k hk hv
    rw [own_append_of_none _ _ _ (by simp [own, Ne.symm hk]), own_append_of_none _ _ _ hv]
  · rw [own_append_of_some _ _ _ (Val.str nid) (by simp [own])]

theorem insertMermaidElement_commits_witness :
    ∃ preview final : Obj,
      (gesture World.new (pointerAt 300 300, plainState)
        [(pointerAt 100 100, plainState)] (some (pointerAt 100 100, plainState))
        ).tool.previewElement = some preview ∧
      (insertMermaidElement (gesture World.new (pointerAt 300 300, plainState)
        [(pointerAt 100 100, plainState)] (some (pointerAt 100 100, plainState)))
        [("mermaidCode", Val.str "graph LR"), ("id", Val.str "mine")] "V1StGXR8").effects =
        (gesture World.new (pointerAt 300 300, plainState)
          [(pointerAt 100 100, plainState)] (some (pointerAt 100 100, plainState))).effects ++
          [Effect.addElement final, Effect.commitChanges] ∧
      own final "id" = some (Val.str "V1StGXR8") :=
  have h := insertMermaidElement_commits World.new (pointerAt 300 300, plainState)
    [(pointerAt 100 100, plainState)] (some (pointerAt 100 100, plainState))
    [("mermaidCode", Val.str "graph LR"), ("id", Val.str "mine")] "V1StGXR8" rfl
  match h with
  | ⟨p, f, h1, h2, _, _, h5, _⟩ => ⟨p, f, h1, h2, h5⟩

/-! ## The store is written by `insertMermaidElement` only -/

theorem storeElements_append (els : List Obj) (a b : List Effect) :
    storeElements els (a ++ b) = storeElements (storeElements els a) b := by
  induction a generalizing els with
  | nil => rfl
  | cons c rest ih => cases c <;> simp [storeElements, ih]

theorem storeElements_of_no_store_call (els : List Obj) (extra : List Effect)
    (h : ∀ c ∈ extra, c.isStoreCall = false) : storeElements els extra = els := by
  induction extra with
  | nil => rfl
  | cons c rest ih =>
    have hc := h c (List.mem_cons_self c rest)
    have hr := ih (fun d hd => h d (List.mem_cons_of_mem c hd))
    cases c <;> simp_all [storeElements, Effect.isStoreCall]

/-- The calls made by `this.closeMermaidEditor()`. -/
theorem closeMermaidEditor_effects (w : World) :
    (closeMermaidEditor w).effects = w.effects ++
      (if w.tool.callbacksInjected then [Effect.handleCloseMermaidEditor] else []) := by
  cases hinj : w.tool.callbacksInjected <;>
    simp [closeMermaidEditor, handleCloseMermaidEditor, protoCloseMermaidEditor, reset, hinj]

/-- One call other than `insertMermaidElement` appends no store call. -/
theorem step_effects (w : World) (ev : ToolEvent) :
    ∃ extra : List Effect, (step w ev).effects = w.effects ++ extra ∧
      ∀ c ∈ extra, c.isStoreCall = false := by
  cases ev with
  | mouseDown e s =>
    refine ⟨_, onMouseDown_effects w e s, ?_⟩
    intro c hc
    split at hc
    · simp only [List.mem_singleton] at hc; subst hc; rfl
    · split at hc
      · simp only [List.mem_singleton] at hc; subst hc; rfl
      · simp at hc
  | mouseMove e s =>
    refine ⟨[], ?_, by simp⟩
    simp only [step, onMouseMove, List.append_nil]
    split <;> rfl
  | mouseUp e s =>
    refine ⟨[], ?_, by simp⟩
    simp only [step, onMouseUp, List.append_nil]
    split <;> rfl
  | keyDown e s =>
    by_cases hk : e.key = "Escape"
    · cases he : w.tool.isEditing
      · refine ⟨[], ?_, by simp⟩
        cases hd : w.tool.isDrawing <;> simp [step, onKeyDown, hk, he, hd, reset]
      · refine ⟨if w.tool.callbacksInjected then [Effect.handleCloseMermaidEditor] else [],
          ?_, ?_⟩
        · simp only [step, onKeyDown, hk, he, if_true]
          exact closeMermaidEditor_effects w
        · intro c hc
          split at hc
          · simp only [List.mem_singleton] at hc; subst hc; rfl
          · simp at hc
    · exact ⟨[], by simp [step, onKeyDown, hk], by simp⟩
  | reset => exact ⟨[], by simp [step, reset], by simp⟩

/-- A sequence of calls other than `insertMermaidElement` appends no store call. -/
theorem run_effects (evs : List ToolEvent) :
    ∀ w : World, ∃ extra : List Effect, (run w evs).effects = w.effects ++ extra ∧
      ∀ c ∈ extra, c.isStoreCall = false := by
  induction evs with
  | nil => intro w; exact ⟨[], by simp [run], by simp⟩
  | cons ev rest ih =>
    intro w
    obtain ⟨x1, h1, n1⟩ := step_effects w ev
    obtain ⟨x2, h2, n2⟩ := ih (step w ev)
    refine ⟨x1 ++ x2, ?_, ?_⟩
    · have : run w (ev :: rest) = run (step w ev) rest := rfl
      rw [this, h2, h1, List.append_assoc]
    · intro c hc
      rcases List.mem_append.mp hc with h | h
      · exact n1 c h
      · exact n2 c h

/-- C2: in every tool state, a sequence of `onMouseDown`, `onMouseMove`, `onMouseUp`,
`onKeyDown` and `reset` calls makes no `addElement` and no `commitChanges` call, so
the elements sequence of the store is unchanged; `onMouseUp` alone commits nothing. -/
theorem no_commit_without_insert (w : World) (evs : List ToolEvent) :
    (∃ extra : List Effect, (run w evs).effects = w.effects ++ extra ∧
      ∀ c ∈ extra, c ≠ Effect.commitChanges ∧ ∀ el, c ≠ Effect.addElement el) ∧
    (∀ els : List Obj, storeElements els (run w evs).effects = storeElements els w.effects) ∧
    (∀ (e : MouseEvent) (s : EditorState), (onMouseUp w e s).effects = w.effects) := by
  obtain ⟨extra, h, hn⟩ := run_effects evs w
  refine ⟨⟨extra, h, ?_⟩, ?_, ?_⟩
  · intro c hc
    have := hn c hc
    constructor
    · intro hcc; subst hcc; simp [Effect.isStoreCall] at this
    · intro el hcc; subst hcc; simp [Effect.isStoreCall] at this
  · intro els
    rw [h, storeElements_append, storeElements_of_no_store_call _ extra hn]
  · intro e s
    simp only [onMouseUp]
    split <;> rfl

theorem no_commit_without_insert_witness :
    storeElements []
        (run World.new
          [ToolEvent.mouseDown (pointerAt 300 300) callbackState,
           ToolEvent.mouseMove (pointerAt 100 100) callbackState,
           ToolEvent.mouseUp (pointerAt 100 100) callbackState,
           ToolEvent.keyDown ⟨"Escape"⟩ callbackState]).effects =
      storeElements [] World.new.effects :=
  (no_commit_without_insert World.new
    [ToolEvent.mouseDown (pointerAt 300 300) callbackState,
     ToolEvent.mouseMove (pointerAt 100 100) callbackState,
     ToolEvent.mouseUp (pointerAt 100 100) callbackState,
     ToolEvent.keyDown ⟨"Escape"⟩ callbackState]).2.1 []

/-! ## Escape -/

/-- C4: on a tool without injected callbacks that is drawing or editing, Escape
returns the tool to Idle and makes no call at all, so the elements of the store
are unchanged; another key changes nothing. -/
theorem escape_cancels (w : World) (s : EditorState)
    (hinj : w.tool.callbacksInjected = false)
    (h : w.tool.isDrawing = true ∨ w.tool.isEditing = true) :
    (onKeyDown w ⟨"Escape"⟩ s).tool.isDrawing = false ∧
      (onKeyDown w ⟨"Escape"⟩ s).tool.isEditing = false ∧
      (onKeyDown w ⟨"Escape"⟩ s).tool.previewElement = none ∧
      (onKeyDown w ⟨"Escape"⟩ s).tool.startPoint = none ∧
      (onKeyDown w ⟨"Escape"⟩ s).tool.editorState = none ∧
      (onKeyDown w ⟨"Escape"⟩ s).effects = w.effects ∧
      (∀ els : List Obj,
        storeElements els (onKeyDown w ⟨"Escape"⟩ s).effects = storeElements els w.effects) ∧
      (∀ key : String, key ≠ "Escape" → onKeyDown w ⟨key⟩ s = w) := by
  have hkey : ∀ key : String, key ≠ "Escape" → onKeyDown w ⟨key⟩ s = w := by
    intro key hk
    simp [onKeyDown, hk]
  cases he : w.tool.isEditing
  · have hd : w.tool.isDrawing = true := by
      rcases h with h | h
      · exact h
      · rw [he] at h; cases h
    have hw : onKeyDown w ⟨"Escape"⟩ s = reset w := by
      simp [onKeyDown, he, hd]
    rw [hw]
    exact ⟨rfl, rfl, rfl, rfl, rfl, rfl, fun _ => rfl, hkey⟩
  · have hw : onKeyDown w ⟨"Escape"⟩ s = protoCloseMermaidEditor w := by
      simp [onKeyDown, he, closeMermaidEditor, hinj]
    rw [hw]
    exact ⟨rfl, rfl, rfl, rfl, rfl, rfl, fun _ => rfl, hkey⟩

theorem escape_cancels_witness :
    (onKeyDown (onMouseDown World.new (pointerAt 300 300) plainState) ⟨"Escape"⟩
        plainState).tool.previewElement = none ∧
      (onKeyDown (onMouseDown World.new (pointerAt 300 300) plainState) ⟨"Escape"⟩
        plainState).effects = (onMouseDown World.new (pointerAt 300 300) plainState).effects :=
  have h := escape_cancels (onMouseDown World.new (pointerAt 300 300) plainState) plainState
    rfl (Or.inl rfl)
  ⟨h.2.2.1, h.2.2.2.2.2.1⟩

/-! ## When the editor opens -/

/-- C6, as stated, fails: on a fresh tool `onMouseDown` alone already sets
`isEditing` and calls the open-editor callback of the state, and the following
`onMouseUp` calls nothing. -/
theorem editor_opens_on_pointer_up_counterexample :
    ¬ ((onMouseDown World.new (pointerAt 10 20) callbackState).tool.isEditing = false ∧
        (onMouseDown World.new (pointerAt 10 20) callbackState).effects = []) ∧
      (onMouseDown World.new (pointerAt 10 20) callbackState).tool.isEditing = true ∧
      (onMouseDown World.new (pointerAt 10 20) callbackState).effects =
        [Effect.stateOpenMermaidEditor 10 20] ∧
      (onMouseUp (onMouseDown World.new (pointerAt 10 20) callbackState)
        (pointerAt 10 20) callbackState).effects =
        (onMouseDown World.new (pointerAt 10 20) callbackState).effects := by
  have he : (onMouseDown World.new (pointerAt 10 20) callbackState).tool.isEditing = true :=
    (onMouseDown_editorState World.new (pointerAt 10 20) callbackState rfl).2
  refine ⟨?_, he, ?_, ?_⟩
  · intro h
    rw [he] at h
    exact Bool.noConfusion h.1
  · rw [onMouseDown_effects]
    simp [World.new, MermaidTool.new, callbackState, plainState, getCanvasCoordinates,
      pointerAt]
  · simp only [onMouseUp]
    split <;> rfl

/-- C6, amended: the editor opens at pointer-down.  `onMouseDown` sets `isDrawing`
and makes the one open-editor call itself: without injected callbacks it sets
`isEditing` and `editorState` and calls `state.openMermaidEditor(x, y)` when the
state has one; with injected callbacks it calls the injected open callback.  The
following `onMouseUp` calls nothing, keeps `isEditing` and clears `isDrawing`. -/
theorem editor_opens_on_pointer_down (w : World) (e e2 : MouseEvent) (s s2 : EditorState) :
    (onMouseDown w e s).tool.isDrawing = true ∧
      (w.tool.callbacksInjected = false →
        (onMouseDown w e s).tool.isEditing = true ∧
        (onMouseDown w e s).tool.editorState = some s ∧
        (onMouseDown w e s).effects = w.effects ++
          (if s.openMermaidEditor then
            [Effect.stateOpenMermaidEditor (getCanvasCoordinates e s).x
              (getCanvasCoordinates e s).y]
           else [])) ∧
      (w.tool.callbacksInjected = true →
        (onMouseDown w e s).effects = w.effects ++
          [Effect.handleOpenMermaidEditor (getCanvasCoordinates e s).x]) ∧
      (onMouseUp (onMouseDown w e s) e2 s2).effects = (onMouseDown w e s).effects ∧
      (onMouseUp (onMouseDown w e s) e2 s2).tool.isEditing =
        (onMouseDown w e s).tool.isEditing ∧
      (onMouseUp (onMouseDown w e s) e2 s2).tool.isDrawing = false := by
  have hup : onMouseUp (onMouseDown w e s) e2 s2 =
      { onMouseDown w e s with
        tool := { (onMouseDown w e s).tool with isDrawing := false } } := by
    simp [onMouseUp, onMouseDown_isDrawing, onMouseDown_previewElement]
  refine ⟨onMouseDown_isDrawing w e s, ?_, ?_, ?_, ?_, ?_⟩
  · intro hinj
    refine ⟨(onMouseDown_editorState w e s hinj).2, (onMouseDown_editorState w e s hinj).1, ?_⟩
    rw [onMouseDown_effects, hinj]
    rfl
  · intro hinj
    rw [onMouseDown_effects, hinj]
    rfl
  · rw [hup]
  · rw [hup]
  · rw [hup]

theorem editor_opens_on_pointer_down_witness :
    (onMouseDown World.new (pointerAt 10 20) callbackState).tool.isEditing = true ∧
      (onMouseDown (setEditorCallbacks World.new) (pointerAt 10 20) callbackState).effects =
        (setEditorCallbacks World.new).effects ++
          [Effect.handleOpenMermaidEditor
            (getCanvasCoordinates (pointerAt 10 20) callbackState).x] :=
  ⟨((editor_opens_on_pointer_down World.new (pointerAt 10 20) (pointerAt 10 20)
      callbackState callbackState).2.1 rfl).1,
   (editor_opens_on_pointer_down (setEditorCallbacks World.new) (pointerAt 10 20)
      (pointerAt 10 20) callbackState callbackState).2.2.1 rfl⟩

/-! ## Injected callbacks -/

/-- The tool after `setEditorCallbacks` and `onMouseDown`: the injected open callback
replaces the method that sets `isEditing` and `editorState`. -/
theorem onMouseDown_injected (w : World) (e : MouseEvent) (s : EditorState)
    (hinj : w.tool.callbacksInjected = true) :
    onMouseDown w e s =
      { tool := { w.tool with isDrawing := true,
                              startPoint := some (getCanvasCoordinates e s),
                              previewElement := some
                                (previewAt (getCanvasCoordinates e s).x
                                  (getCanvasCoordinates e s).y
                                  (s.getCurrentStyle.getD defaultStyle)) },
        mermaidEditor := { isOpen := true, position := some (getCanvasCoordinates e s).x },
        effects := w.effects ++
          [Effect.handleOpenMermaidEditor (getCanvasCoordinates e s).x] } := by
  simp [onMouseDown, openMermaidEditor, handleOpenMermaidEditor, hinj]

/-- C3, the code at the failing input: with the callbacks attached through
`setEditorCallbacks`, `onMouseDown` calls the injected open callback, and after
`onMouseUp` the call `insertMermaidElement(payload)` returns at once: no
`addElement`, no `commitChanges`, the preview is kept. -/
theorem insert_after_setEditorCallbacks (e e2 : MouseEvent) (s s2 : EditorState)
    (payload : Obj) (nid : String) :
    (onMouseUp (onMouseDown (setEditorCallbacks World.new) e s) e2 s2).effects =
        [Effect.handleOpenMermaidEditor (getCanvasCoordinates e s).x] ∧
      (onMouseUp (onMouseDown (setEditorCallbacks World.new) e s) e2 s2).tool.editorState =
        none ∧
      insertMermaidElement (onMouseUp (onMouseDown (setEditorCallbacks World.new) e s) e2 s2)
        payload nid =
        onMouseUp (onMouseDown (setEditorCallbacks World.new) e s) e2 s2 := by
  rw [onMouseDown_injected _ e s rfl]
  simp [onMouseUp, insertMermaidElement, setEditorCallbacks, World.new, MermaidTool.new]

/-- C5, the code at the failing input: with the callbacks attached through
`setEditorCallbacks`, Escape after `onMouseDown` resets the tool without calling
the injected close callback, so the panel stays open; Escape after `onMouseDown`
and `onMouseUp` does nothing at all, so the preview is kept as well. -/
theorem escape_after_setEditorCallbacks (e e2 : MouseEvent) (s s2 ks : EditorState) :
    (onKeyDown (onMouseDown (setEditorCallbacks World.new) e s) ⟨"Escape"⟩ ks).effects =
        [Effect.handleOpenMermaidEditor (getCanvasCoordinates e s).x] ∧
      (onKeyDown (onMouseDown (setEditorCallbacks World.new) e s) ⟨"Escape"⟩
        ks).mermaidEditor.isOpen = true ∧
      onKeyDown (onMouseUp (onMouseDown (setEditorCallbacks World.new) e s) e2 s2)
        ⟨"Escape"⟩ ks =
        onMouseUp (onMouseDown (setEditorCallbacks World.new) e s) e2 s2 ∧
      (onMouseUp (onMouseDown (setEditorCallbacks World.new) e s) e2 s2).tool.previewElement =
        some (previewAt (getCanvasCoordinates e s).x (getCanvasCoordinates e s).y
          (s.getCurrentStyle.getD defaultStyle)) ∧
      (onMouseUp (onMouseDown (setEditorCallbacks World.new) e s) e2 s2).effects =
        [Effect.handleOpenMermaidEditor (getCanvasCoordinates e s).x] := by
  rw [onMouseDown_injected _ e s rfl]
  simp [onMouseUp, onKeyDown, reset, setEditorCallbacks, World.new, MermaidTool.new]

/-! ## Falsy options -/

/-- C10, the code at the failing input: a supplied `roughness: 0`, `opacity: 0` or
`seed: 0` is replaced by the default 1, 100 or the random seed, for every variant
tag. -/
theorem createElement_replaces_zero (r : Entropy) (type : String) (x y : ℚ) :
    own (createElement r type x y
        [("roughness", Val.num 0), ("opacity", Val.num 0), ("seed", Val.num 0)])
        "roughness" = some (Val.num 1) ∧
      own (createElement r type x y
        [("roughness", Val.num 0), ("opacity", Val.num 0), ("seed", Val.num 0)])
        "opacity" = some (Val.num 100) ∧
      own (createElement r type x y
        [("roughness", Val.num 0), ("opacity", Val.num 0), ("seed", Val.num 0)])
        "seed" = some (Val.num r.seedDraw) := by
  unfold createElement
  refine ⟨?_, ?_, ?_⟩ <;>
    (split_ifs <;> simp [baseElement, own, prop, jsOr, truthy])

/-! ## Generated ids -/

theorem toDigitsCore_append (fuel : Nat) :
    ∀ (n : Nat) (ds : List Char),
      Nat.toDigitsCore 10 fuel n ds = Nat.toDigitsCore 10 fuel n [] ++ ds := by
  induction fuel with
  | zero => intro n ds; simp [Nat.toDigitsCore]
  | succ f ih =>
    intro n ds
    simp only [Nat.toDigitsCore]
    split
    · simp
    · rw [ih (n / 10) (Nat.digitChar (n % 10) :: ds), ih (n / 10) [Nat.digitChar (n % 10)]]
      simp

theorem digitChar_lt_ten (d : Nat) (h : d < 10) :
    (Nat.digitChar d).toNat - 48 = d ∧ Nat.digitChar d ≠ '_' := by
  interval_cases d <;> exact ⟨by decide, by decide⟩

theorem decimalValue_append_singleton (cs : List Char) (c : Char) :
    decimalValue (cs ++ [c]) = 10 * decimalValue cs + (c.toNat - 48) := by
  simp [decimalValue, List.foldl_append]

theorem decimalValue_toDigitsCore (fuel : Nat) :
    ∀ n : Nat, n < fuel → decimalValue (Nat.toDigitsCore 10 fuel n []) = n := by
  induction fuel with
  | zero => intro n h; omega
  | succ f ih =>
    intro n h
    simp only [Nat.toDigitsCore]
    split
    · rename_i h0
      have hd := (digitChar_lt_ten (n % 10) (Nat.mod_lt n (by decide))).1
      simp only [decimalValue, List.foldl_cons, List.foldl_nil, hd]
      omega
    · rename_i h0
      rw [toDigitsCore_append, decimalValue_append_singleton,
        ih (n / 10) (by omega), (digitChar_lt_ten (n % 10) (Nat.mod_lt n (by decide))).1]
      omega

theorem toDigitsCore_no_underscore (fuel : Nat) :
    ∀ n : Nat, '_' ∉ Nat.toDigitsCore 10 fuel n [] := by
  induction fuel with
  | zero => intro n; simp [Nat.toDigitsCore]
  | succ f ih =>
    intro n
    have hd := (digitChar_lt_ten (n % 10) (Nat.mod_lt n (by decide))).2
    simp only [Nat.toDigitsCore]
    split
    · simpa using hd.symm
    · rw [toDigitsCore_append]
      simp only [List.mem_append, List.mem_singleton, not_or]
      exact ⟨ih (n / 10), hd.symm⟩

theorem append_cons_inj_of_not_mem (c : Char) :
    ∀ (l1 l2 r1 r2 : List Char), c ∉ l1 → c ∉ l2 → l1 ++ c :: r1 = l2 ++ c :: r2 →
      l1 = l2 ∧ r1 = r2 := by
  intro l1
  induction l1 with
  | nil =>
    intro l2 r1 r2 _ h2 h
    cases l2 with
    | nil => simpa using h
    | cons b t =>
      simp only [List.nil_append, List.cons_append, List.cons.injEq] at h
      exact absurd (h.1 ▸ List.mem_cons_self b t) h2
  | cons a t ih =>
    intro l2 r1 r2 h1 h2 h
    cases l2 with
    | nil =>
      simp only [List.nil_append, List.cons_append, List.cons.injEq] at h
      exact absurd (h.1 ▸ List.mem_cons_self a t) h1
    | cons b u =>
      simp only [List.cons_append, List.cons.injEq] at h
      have := ih u r1 r2 (fun hm => h1 (List.mem_cons_of_mem a hm))
        (fun hm => h2 (List.mem_cons_of_mem b hm)) h.2
      exact ⟨by rw [h.1, this.1], this.2⟩

/-- The generated id determines the clock reading and the random text. -/
theorem generatedId_injective (r1 r2 : Entropy) (h : generatedId r1 = generatedId r2) :
    r1.now = r2.now ∧ r1.idDraw = r2.idDraw := by
  have hd := congrArg String.data h
  simp only [generatedId, String.data_append, List.append_assoc] at hd
  have hd2 := List.append_cancel_left hd
  have e1 : (toString r1.now).data = Nat.toDigitsCore 10 (r1.now + 1) r1.now [] := rfl
  have e2 : (toString r2.now).data = Nat.toDigitsCore 10 (r2.now + 1) r2.now [] := rfl
  rw [e1, e2] at hd2
  simp only [List.singleton_append] at hd2
  have key := append_cons_inj_of_not_mem '_' _ _ _ _
    (toDigitsCore_no_underscore _ r1.now) (toDigitsCore_no_underscore _ r2.now) hd2
  constructor
  · have h1 := decimalValue_toDigitsCore (r1.now + 1) r1.now (Nat.lt_succ_self _)
    have h2 := decimalValue_toDigitsCore (r2.now + 1) r2.now (Nat.lt_succ_self _)
    rw [key.1] at h1
    omega
  · exact String.ext key.2

/-- The id of an element created without `options.id` is the generated id. -/
theorem createElement_id (r : Entropy) (type : String) (x y : ℚ) (options : Obj)
    (h : own options "id" = none) :
    prop (createElement r type x y options) "id" = Val.str (generatedId r) := by
  unfold createElement
  split_ifs <;> simp [baseElement, own, prop, jsOr, truthy, h]

/-- C11, as stated, fails: two calls without `options.id` that read the same clock
value and draw the same random text return the same id. -/
theorem createdIds_distinct_counterexample :
    own ([] : Obj) "id" = none ∧
      ¬ (createdIds
          [{ entropy := ⟨1700000000000, "k3j9x0q1z", 11⟩, type := "rectangle",
             x := 0, y := 0, options := [] },
           { entropy := ⟨1700000000000, "k3j9x0q1z", 22⟩, type := "mermaid",
             x := 5, y := 5, options := [] }]).Nodup := by
  refine ⟨rfl, ?_⟩
  simp only [createdIds, List.map_cons, List.map_nil, CreateCall.result]
  rw [createElement_id _ _ _ _ [] rfl, createElement_id _ _ _ _ [] rfl]
  simp [generatedId]

/-- C11, amended: in a sequence of `createElement` calls without `options.id` in
which no two calls have both the same clock reading and the same random text, the
returned ids are pairwise distinct; two calls with the same clock reading and the
same random text return the same id. -/
theorem createdIds_nodup (calls : List CreateCall)
    (hid : ∀ c ∈ calls, own c.options "id" = none)
    (hd : calls.Pairwise (fun a b =>
      a.entropy.now ≠ b.entropy.now ∨ a.entropy.idDraw ≠ b.entropy.idDraw)) :
    (createdIds calls).Nodup ∧
      (∀ a b : CreateCall, own a.options "id" = none → own b.options "id" = none →
        a.entropy.now = b.entropy.now → a.entropy.idDraw = b.entropy.idDraw →
        prop a.result "id" = prop b.result "id") := by
  constructor
  · unfold createdIds List.Nodup
    rw [List.pairwise_map]
    refine List.Pairwise.imp_of_mem ?_ hd
    intro a b ha hb hab heq
    simp only [CreateCall.result] at heq
    rw [createElement_id _ _ _ _ _ (hid a ha), createElement_id _ _ _ _ _ (hid b hb)] at heq
    have := generatedId_injective _ _ (Val.str.inj heq)
    rcases hab with h | h
    · exact h this.1
    · exact h this.2
  · intro a b ha hb hn hr
    simp only [CreateCall.result]
    rw [createElement_id _ _ _ _ _ ha, createElement_id _ _ _ _ _ hb]
    simp [generatedId, hn, hr]

theorem createdIds_nodup_witness :
    (createdIds
      [{ entropy := ⟨1700000000000, "k3j9x0q1z", 11⟩, type := "rectangle",
         x := 0, y := 0, options := [] },
       { entropy := ⟨1700000000001, "k3j9x0q1z", 22⟩, type := "mermaid",
         x := 5, y := 5, options := [("stroke", Val.str "#ff0000")] }]).Nodup :=
  (createdIds_nodup
    [{ entropy := ⟨1700000000000, "k3j9x0q1z", 11⟩, type := "rectangle",
       x := 0, y := 0, options := [] },
     { entropy := ⟨1700000000001, "k3j9x0q1z", 22⟩, type := "mermaid",
       x := 5, y := 5, options := [("stroke", Val.str "#ff0000")] }]
    (by
      intro c hc
      simp only [List.mem_cons, List.mem_singleton, List.not_mem_nil, or_false] at hc
      rcases hc with h | h <;> subst h <;> simp [own])
    (by simp)).1

/-! ## The field set of a committed diagram element -/

/-- Outside the box `x`, `y`, `width`, `height`, the preview after a gesture reads as
the preview literal of the pointer-down. -/
theorem gesture_preview (w : World) (down : MouseEvent × EditorState)
    (moves : List (MouseEvent × EditorState)) (up : Option (MouseEvent × EditorState))
    (hinj : w.tool.callbacksInjected = false) :
    ∃ q : Obj, (gesture w down moves up).tool.previewElement = some q ∧
      ∀ k : String, k ≠ "x" → k ≠ "y" → k ≠ "width" → k ≠ "height" →
        own q k = own (previewAt (getCanvasCoordinates down.1 down.2).x
          (getCanvasCoordinates down.1 down.2).y
          (down.2.getCurrentStyle.getD defaultStyle)) k := by
  have hmoves : ∀ (ms : List (MouseEvent × EditorState)) (v : World) (p : Obj),
      Armed down.2 v → v.tool.previewElement = some p →
      ∃ q : Obj, (ms.foldl (fun acc m => onMouseMove acc m.1 m.2) v).tool.previewElement =
          some q ∧
        ∀ k : String, k ≠ "x" → k ≠ "y" → k ≠ "width" → k ≠ "height" →
          own q k = own p k := by
    intro ms
    induction ms with
    | nil => intro v p _ hp; exact ⟨p, hp, fun _ _ _ _ _ => rfl⟩
    | cons m rest ih =>
      intro v p hv hp
      obtain ⟨a, ha⟩ := hv.anchor
      have hstep := onMouseMove_drawing v m.1 m.2 a p hv.drawing ha hp
      have harm := (onMouseMove_armed down.2 v m.1 m.2 hv).1
      obtain ⟨q, hq, hk⟩ := ih (onMouseMove v m.1 m.2) _ harm (by rw [hstep])
      refine ⟨q, hq, ?_⟩
      intro k hx hy hw hh
      rw [hk k hx hy hw hh, own_append_of_none]
      simp [own, Ne.symm hx, Ne.symm hy, Ne.symm hw, Ne.symm hh]
  have harm := onMouseDown_armed w down.1 down.2 hinj
  obtain ⟨q, hq, hk⟩ := hmoves moves _ _ harm (onMouseDown_previewElement w down.1 down.2)
  have h := (moves_armed down.2 moves _ harm).1
  cases up with
  | none => exact ⟨q, hq, hk⟩
  | some u =>
    refine ⟨q, ?_, hk⟩
    have hq2 : (moves.foldl (fun acc m => onMouseMove acc m.1 m.2)
        (onMouseDown w down.1 down.2)).tool.previewElement = some q := hq
    simp [gesture, onMouseUp, h.drawing, hq2]

/-- C12, the code at the failing input: the element that `insertMermaidElement`
commits for the payload of the editor panel has no `roughness`, no `seed`, no
`angle` and no `mermaidConfig`, fields that every element of
`createElement('mermaid', ...)` has. -/
theorem committed_element_fields (down : MouseEvent × EditorState)
    (moves : List (MouseEvent × EditorState)) (up : Option (MouseEvent × EditorState))
    (code theme diagramType previewSvg nid : String) :
    (∃ final : Obj,
      (insertMermaidElement (gesture World.new down moves up)
          (handleInsertPayload code theme diagramType previewSvg) nid).effects =
        (gesture World.new down moves up).effects ++
          [Effect.addElement final, Effect.commitChanges] ∧
      own final "roughness" = none ∧ own final "seed" = none ∧
      own final "angle" = none ∧ own final "mermaidConfig" = none ∧
      own final "renderedSvg" = some (Val.str previewSvg)) ∧
    (∀ (r : Entropy) (x y : ℚ) (options : Obj),
      (own (createElement r "mermaid" x y options) "roughness").isSome = true ∧
      (own (createElement r "mermaid" x y options) "seed").isSome = true ∧
      (own (createElement r "mermaid" x y options) "angle").isSome = true ∧
      (own (createElement r "mermaid" x y options) "mermaidConfig").isSome = true) := by
  constructor
  · obtain ⟨q, hq, hk⟩ := gesture_preview World.new down moves up rfl
    obtain ⟨_, hst, _, hplain⟩ := gesture_editing World.new down moves up rfl
    have h := insertMermaidElement_editing _ down.2 q
      (handleInsertPayload code theme diagramType previewSvg) nid hplain hst hq
    have hnone : ∀ k : String, k ≠ "x" → k ≠ "y" → k ≠ "width" → k ≠ "height" →
        own [("id", Val.str nid)] k = none →
        own (handleInsertPayload code theme diagramType previewSvg) k = none →
        own (previewAt (getCanvasCoordinates down.1 down.2).x
          (getCanvasCoordinates down.1 down.2).y
          (down.2.getCurrentStyle.getD defaultStyle)) k = none →
        own (q ++ handleInsertPayload code theme diagramType previewSvg ++
          [("id", Val.str nid)]) k = none := by
      intro k hx hy hw hh h1 h2 h3
      rw [own_append_of_none _ _ _ h1, own_append_of_none _ _ _ h2, hk k hx hy hw hh, h3]
    refine ⟨_, h.1, ?_, ?_, ?_, ?_, ?_⟩
    · exact hnone _ (by decide) (by decide) (by decide) (by decide)
        (by simp [own]) (by simp [own, handleInsertPayload]) (by simp [own, previewAt])
    · exact hnone _ (by decide) (by decide) (by decide) (by decide)
        (by simp [own]) (by simp [own, handleInsertPayload]) (by simp [own, previewAt])
    · exact hnone _ (by decide) (by decide) (by decide) (by decide)
        (by simp [own]) (by simp [own, handleInsertPayload]) (by simp [own, previewAt])
    · exact hnone _ (by decide) (by decide) (by decide) (by decide)
        (by simp [own]) (by simp [own, handleInsertPayload]) (by simp [own, previewAt])
    · rw [own_append_of_none _ _ _ (by simp [own]),
        own_append_of_some _ _ _ (Val.str previewSvg) (by simp [own, handleInsertPayload])]
  · intro r x y options
    simp [createElement, baseElement, own]

/-! ## `editorState` implies editing with a preview -/

theorem reset_sound (w : World) (h : w.tool.callbacksInjected = false) : Sound (reset w) :=
  { plain := h, editing := fun hne => absurd rfl hne }

theorem protoCloseMermaidEditor_sound (w : World) (h : w.tool.callbacksInjected = false) :
    Sound (protoCloseMermaidEditor w) :=
  { plain := h, editing := fun hne => absurd rfl hne }

theorem closeMermaidEditor_plain (w : World) (h : w.tool.callbacksInjected = false) :
    closeMermaidEditor w = protoCloseMermaidEditor w := by
  simp [closeMermaidEditor, h]

theorem step_sound (w : World) (ev : ToolEvent) (h : Sound w) : Sound (step w ev) := by
  cases ev with
  | mouseDown e s =>
    have ha := onMouseDown_armed w e s h.plain
    obtain ⟨p, hp⟩ := ha.preview
    exact { plain := ha.plain
            editing := fun _ => ⟨ha.editing, by simp [step, hp]⟩ }
  | mouseMove e s =>
    simp only [step, onMouseMove]
    split
    · refine { plain := h.plain, editing := ?_ }
      intro hne
      exact ⟨(h.editing hne).1, by simp⟩
    · exact h
  | mouseUp e s =>
    simp only [step, onMouseUp]
    split
    · exact reset_sound w h.plain
    · exact { plain := h.plain, editing := h.editing }
  | keyDown e s =>
    simp only [step, onKeyDown]
    split
    · split
      · rw [closeMermaidEditor_plain w h.plain]
        exact protoCloseMermaidEditor_sound w h.plain
      · split
        · exact reset_sound w h.plain
        · exact h
    · exact h
  | reset => exact reset_sound w h.plain

theorem insertMermaidElement_sound (w : World) (payload : Obj) (nid : String)
    (h : Sound w) : Sound (insertMermaidElement w payload nid) := by
  unfold insertMermaidElement
  split
  · exact h
  · simp only [closeMermaidEditor, h.plain, Bool.false_eq_true, if_false]
    exact protoCloseMermaidEditor_sound _ h.plain

theorem calls_sound (cs : List ToolCall) : ∀ w : World, Sound w → Sound (calls w cs) := by
  induction cs with
  | nil => intro w h; exact h
  | cons c rest ih =>
    intro w h
    have hc : Sound (call w c) := by
      cases c with
      | event ev => exact step_sound w ev h
      | insert payload nid => exact insertMermaidElement_sound w payload nid h
    exact ih _ hc

/-- C17: in every state reached from the constructed tool through `onMouseDown`,
`onMouseMove`, `onMouseUp`, `onKeyDown`, `insertMermaidElement` and `reset`,
`editorState` is set only if `isEditing` is true and there is a preview; so when
`insertMermaidElement` adds an element it is built from that preview, and when
`editorState` is null the call changes neither the calls made nor the tool. -/
theorem editorState_implies_preview (cs : List ToolCall) :
    ((calls World.new cs).tool.editorState ≠ none →
      (calls World.new cs).tool.isEditing = true ∧
      (calls World.new cs).tool.previewElement ≠ none) ∧
    (∀ (payload : Obj) (nid : String), (calls World.new cs).tool.editorState ≠ none →
      ∃ p : Obj, (calls World.new cs).tool.previewElement = some p ∧
        (insertMermaidElement (calls World.new cs) payload nid).effects =
          (calls World.new cs).effects ++
            [Effect.addElement (p ++ payload ++ [("id", Val.str nid)]),
             Effect.commitChanges]) ∧
    (∀ (payload : Obj) (nid : String), (calls World.new cs).tool.editorState = none →
      insertMermaidElement (calls World.new cs) payload nid = calls World.new cs) := by
  have hs : Sound (calls World.new cs) :=
    calls_sound cs World.new { plain := rfl, editing := fun hne => absurd rfl hne }
  refine ⟨hs.editing, ?_, ?_⟩
  · intro payload nid hne
    have hp := (hs.editing hne).2
    cases hpe : (calls World.new cs).tool.previewElement with
    | none => exact absurd hpe hp
    | some p =>
      cases hst : (calls World.new cs).tool.editorState with
      | none => exact absurd hst hne
      | some st =>
        exact ⟨p, rfl, (insertMermaidElement_editing _ st p payload nid hs.plain hst hpe).1⟩
  · intro payload nid hnone
    simp [insertMermaidElement, hnone]

theorem editorState_implies_preview_witness :
    (calls World.new
        [ToolCall.event (ToolEvent.mouseDown (pointerAt 300 300) plainState),
         ToolCall.event (ToolEvent.mouseUp (pointerAt 300 300) plainState)]
      ).tool.isEditing = true ∧
    insertMermaidElement
        (calls World.new
          [ToolCall.event (ToolEvent.mouseDown (pointerAt 300 300) plainState),
           ToolCall.event (ToolEvent.keyDown ⟨"Escape"⟩ plainState)])
        [("mermaidCode", Val.str "graph LR")] "V1StGXR8" =
      calls World.new
        [ToolCall.event (ToolEvent.mouseDown (pointerAt 300 300) plainState),
         ToolCall.event (ToolEvent.keyDown ⟨"Escape"⟩ plainState)] :=
  ⟨((editorState_implies_preview
      [ToolCall.event (ToolEvent.mouseDown (pointerAt 300 300) plainState),
       ToolCall.event (ToolEvent.mouseUp (pointerAt 300 300) plainState)]).1
      (by simp [calls, call, step, onMouseDown, onMouseUp, openMermaidEditor,
        protoOpenMermaidEditor, World.new, MermaidTool.new, plainState])).1,
   (editorState_implies_preview
      [ToolCall.event (ToolEvent.mouseDown (pointerAt 300 300) plainState),
       ToolCall.event (ToolEvent.keyDown ⟨"Escape"⟩ plainState)]).2.2
      [("mermaidCode", Val.str "graph LR")] "V1StGXR8"
      (by simp [calls, call, step, onMouseDown, onKeyDown, openMermaidEditor,
        protoOpenMermaidEditor, closeMermaidEditor, protoCloseMermaidEditor, reset,
        MermaidTool.reset, World.new, MermaidTool.new, plainState])⟩

/-! ## Select-all -/

/-- C13: for every current canvas and every prior selection that satisfies the
selection invariant (every selected id is the id of an element of the canvas),
`handleSelectAll` sets the current tool to `select` and leaves the selection equal
to the ids of the elements of the canvas in paint order, so every selected id is the
id of an element; on a canvas without elements it makes no selection call and the
selection is empty.  The store is any store in which `setCurrentTool` sets the tool
and adds no id to the selection, and `setSelectedElements` keeps the tool and
installs the ids of the canvas. -/
theorem handleSelectAll_selects_all {σ : Type} (api : StoreApi σ) (canvas : Canvas)
    (store : σ)
    (htool : ∀ (tool : String) (s : σ), api.currentTool (api.setCurrentTool tool s) = tool)
    (hkept : ∀ (ids : List Val) (s : σ),
      api.currentTool (api.setSelectedElements ids s) = api.currentTool s)
    (hsub : ∀ (tool : String) (s : σ),
      ∀ id ∈ api.selectedElementIds (api.setCurrentTool tool s),
        id ∈ api.selectedElementIds s)
    (hset : ∀ s : σ,
      api.selectedElementIds (api.setSelectedElements (elementIds canvas) s) =
        elementIds canvas)
    (hinv : ∀ id ∈ api.selectedElementIds store, id ∈ elementIds canvas) :
    api.currentTool (api.performAll store (handleSelectAll (some canvas))) = "select" ∧
      api.selectedElementIds (api.performAll store (handleSelectAll (some canvas))) =
        elementIds canvas ∧
      (∀ id ∈ api.selectedElementIds
          (api.performAll store (handleSelectAll (some canvas))),
        ∃ el ∈ canvas.elements, prop el "id" = id) ∧
      (canvas.elements = [] →
        handleSelectAll (some canvas) = [EditorAction.setCurrentTool "select"] ∧
        api.selectedElementIds (api.performAll store (handleSelectAll (some canvas))) =
          []) := by
  have hsel : api.selectedElementIds
      (api.performAll store (handleSelectAll (some canvas))) = elementIds canvas := by
    cases hel : canvas.elements with
    | nil =>
      have hids : elementIds canvas = [] := by simp [elementIds, hel]
      have hrun : api.performAll store (handleSelectAll (some canvas)) =
          api.setCurrentTool "select" store := by
        simp [handleSelectAll, StoreApi.performAll, StoreApi.perform, hel]
      rw [hrun, hids]
      apply List.eq_nil_iff_forall_not_mem.mpr
      intro id hid
      have := hinv id (hsub "select" store id hid)
      rw [hids] at this
      exact absurd this (List.not_mem_nil id)
    | cons a t =>
      have hrun : api.performAll store (handleSelectAll (some canvas)) =
          api.setSelectedElements (elementIds canvas)
            (api.setCurrentTool "select" store) := by
        simp [handleSelectAll, StoreApi.performAll, StoreApi.perform, hel, elementIds]
      rw [hrun, hset]
  refine ⟨?_, hsel, ?_, ?_⟩
  · cases hel : canvas.elements with
    | nil =>
      have hrun : api.performAll store (handleSelectAll (some canvas)) =
          api.setCurrentTool "select" store := by
        simp [handleSelectAll, StoreApi.performAll, StoreApi.perform, hel]
      rw [hrun, htool]
    | cons a t =>
      have hrun : api.performAll store (handleSelectAll (some canvas)) =
          api.setSelectedElements (elementIds canvas)
            (api.setCurrentTool "select" store) := by
        simp [handleSelectAll, StoreApi.performAll, StoreApi.perform, hel, elementIds]
      rw [hrun, hkept, htool]
  · intro id hid
    rw [hsel] at hid
    obtain ⟨el, hel, hp⟩ := List.mem_map.mp hid
    exact ⟨el, hel, hp⟩
  · intro hel
    refine ⟨by simp [handleSelectAll, hel], ?_⟩
    rw [hsel]
    simp [elementIds, hel]

theorem handleSelectAll_selects_all_witness :
    plainStore.selectedElementIds
        (plainStore.performAll
          { currentTool := "rectangle", selectedElementIds := [Val.str "a"] }
          (handleSelectAll (some { elements :=
            [[("id", Val.str "a")], [("id", Val.str "b")]] }))) =
      elementIds { elements := [[("id", Val.str "a")], [("id", Val.str "b")]] } ∧
    plainStore.selectedElementIds
        (plainStore.performAll { currentTool := "rectangle", selectedElementIds := [] }
          (handleSelectAll (some { elements := [] }))) = [] :=
  ⟨(handleSelectAll_selects_all plainStore
      { elements := [[("id", Val.str "a")], [("id", Val.str "b")]] }
      { currentTool := "rectangle", selectedElementIds := [Val.str "a"] }
      (fun _ _ => rfl) (fun _ _ => rfl) (fun _ _ _ h => h) (fun _ => rfl)
      (by
        intro id hid
        have hid2 : id = Val.str "a" := by simpa [plainStore] using hid
        subst hid2
        simp [elementIds, prop, own])).2.1,
   ((handleSelectAll_selects_all plainStore { elements := [] }
      { currentTool := "rectangle", selectedElementIds := [] }
      (fun _ _ => rfl) (fun _ _ => rfl) (fun _ _ _ h => h) (fun _ => rfl)
      (by
        intro id hid
        simp [plainStore] at hid)).2.2.2 rfl).2⟩

/-! ## Switching tools -/

/-- C16, as stated, fails: switching from the mermaid tool to the select tool leaves
the mermaid instance drawing with its preview, and switching back finds them. -/
theorem switchTool_reset_counterexample :
    (switchTool drawingSession "select").currentToolInstanceRef = some ToolName.select ∧
      (switchTool drawingSession "select").world.tool.isDrawing = true ∧
      (switchTool drawingSession "select").world.tool.previewElement ≠ none ∧
      (switchTool (switchTool drawingSession "select") "mermaid").world.tool.isDrawing =
        true ∧
      (switchTool (switchTool drawingSession "select") "mermaid").world.tool.previewElement ≠
        none := by
  have hw : drawingSession.world =
      onMouseDown (setEditorCallbacks World.new) (pointerAt 10 20) plainState := rfl
  have h1 : (switchTool drawingSession "select").world = drawingSession.world := by
    simp [switchTool, setUpMermaidCallbacks, updateToolRef]
  have h2 : (switchTool (switchTool drawingSession "select") "mermaid").world =
      setEditorCallbacks drawingSession.world := by
    simp [switchTool, setUpMermaidCallbacks, updateToolRef, getTool, toolNamed]
  refine ⟨?_, ?_, ?_, ?_, ?_⟩
  · simp [switchTool, setUpMermaidCallbacks, updateToolRef, getTool, toolNamed]
  · rw [h1, hw]; exact onMouseDown_isDrawing _ _ _
  · rw [h1, hw, onMouseDown_previewElement]; simp
  · rw [h2, hw]; exact onMouseDown_isDrawing _ _ _
  · rw [h2, hw]
    show (onMouseDown (setEditorCallbacks World.new) (pointerAt 10 20)
      plainState).tool.previewElement ≠ none
    rw [onMouseDown_previewElement]; simp

/-- C16, amended: a tool switch points the tool reference at the registry instance
of the new tool name (the select tool for an unknown name) and calls no `reset`:
the `isDrawing`, `isEditing`, `previewElement`, `startPoint` and `editorState` of the
mermaid instance and the calls made stay as they were; a switch to the mermaid tool
installs the editor callbacks on it, any other switch leaves it untouched. -/
theorem switchTool_keeps_state (s : Session) (toolName : String) :
    (switchTool s toolName).currentTool = toolName ∧
      (switchTool s toolName).currentToolInstanceRef = some (getTool toolName) ∧
      (switchTool s toolName).world.tool.isDrawing = s.world.tool.isDrawing ∧
      (switchTool s toolName).world.tool.isEditing = s.world.tool.isEditing ∧
      (switchTool s toolName).world.tool.previewElement = s.world.tool.previewElement ∧
      (switchTool s toolName).world.tool.startPoint = s.world.tool.startPoint ∧
      (switchTool s toolName).world.tool.editorState = s.world.tool.editorState ∧
      (switchTool s toolName).world.effects = s.world.effects ∧
      (toolName = "mermaid" → (switchTool s toolName).world.tool.callbacksInjected = true) ∧
      (toolName ≠ "mermaid" → (switchTool s toolName).world = s.world) := by
  by_cases hm : toolName = "mermaid"
  · subst hm
    simp [switchTool, setUpMermaidCallbacks, updateToolRef, getTool, toolNamed,
      setEditorCallbacks]
  · simp [switchTool, setUpMermaidCallbacks, updateToolRef, hm]

theorem switchTool_keeps_state_witness :
    (switchTool drawingSession "select").world = drawingSession.world ∧
      (switchTool drawingSession "mermaid").world.tool.callbacksInjected = true :=
  ⟨(switchTool_keeps_state drawingSession "select").2.2.2.2.2.2.2.2.2 (by decide),
   (switchTool_keeps_state drawingSession "mermaid").2.2.2.2.2.2.2.2.1 rfl⟩

/-! ## Rendering -/

/-- C14: for blank code `renderPreview` shows the empty string and makes no call on
the render service; for non-blank code it makes the one render call, completes
without an error whatever the service does, and ends with `isRendering = false`:
when the service fails with `e` it shows the error markup, which contains
`e.message`; when the service succeeds it shows exactly the returned SVG. -/
theorem renderPreview_absorbs_failure (render : RenderService) (code : String)
    (view : PanelView) :
    (isBlank code = true →
      renderPreview render code view = (Except.ok { view with previewSvg := "" }, [])) ∧
    (isBlank code = false →
      (renderPreview render code view).2 = [MermaidCall.render "mermaid-preview" code] ∧
      (∀ e : JsError, render "mermaid-preview" code = Except.error e →
        (renderPreview render code view).1 =
          Except.ok { previewSvg := errorMarkup e.message, isRendering := false } ∧
        ∃ before after : String, errorMarkup e.message = before ++ e.message ++ after) ∧
      (∀ svg : String, render "mermaid-preview" code = Except.ok svg →
        (renderPreview render code view).1 =
          Except.ok { previewSvg := svg, isRendering := false })) := by
  constructor
  · intro hb
    simp [renderPreview, hb]
  · intro hb
    refine ⟨by simp [renderPreview, hb], ?_, ?_⟩
    · intro e he
      refine ⟨by simp [renderPreview, hb, he], _, _, rfl⟩
    · intro svg hs
      simp [renderPreview, hb, hs]

theorem renderPreview_absorbs_failure_witness :
    (renderPreview (failingService "Parse error on line 1") "graph TD; A--"
        { previewSvg := "", isRendering := false }).1 =
      Except.ok { previewSvg := errorMarkup "Parse error on line 1", isRendering := false } ∧
    renderPreview (failingService "Parse error on line 1") " \n\t"
        { previewSvg := "old", isRendering := false } =
      (Except.ok { previewSvg := "", isRendering := false }, []) :=
  ⟨(((renderPreview_absorbs_failure (failingService "Parse error on line 1")
        "graph TD; A--" { previewSvg := "", isRendering := false }).2 (by decide)).2.1
        { name := "Error", message := "Parse error on line 1" } rfl).1,
   (renderPreview_absorbs_failure (failingService "Parse error on line 1") " \n\t"
      { previewSvg := "old", isRendering := false }).1 (by decide)⟩

/-- The function `renderMermaidToSvg` with the themes table bound: blank code gives
the empty string and no call; otherwise the configuration has theme `base` for a
Catppuccin name and the given name for a name the table lacks, and the result is
that of the render service, image or error. -/
theorem renderMermaidToSvgWith_table (render : RenderService) (code theme : String) :
    (isBlank code = true →
      renderMermaidToSvgWith (some catppuccinThemes) render code theme = (Except.ok "", [])) ∧
    (isBlank code = false →
      renderMermaidToSvgWith (some catppuccinThemes) render code theme =
        (render "mermaid-render" code,
         [MermaidCall.configure (rendererConfig catppuccinThemes theme),
          MermaidCall.render "mermaid-render" code])) ∧
    (own catppuccinThemes theme = none →
      own (rendererConfig catppuccinThemes theme) "theme" = some (Val.str theme)) ∧
    own (rendererConfig catppuccinThemes "catppuccin-mocha") "theme" =
      some (Val.str "base") ∧
    own (rendererConfig catppuccinThemes "catppuccin-latte") "theme" =
      some (Val.str "base") ∧
    own (rendererConfig catppuccinThemes "catppuccin-macchiato") "theme" =
      some (Val.str "base") ∧
    own (rendererConfig catppuccinThemes "catppuccin-frappe") "theme" =
      some (Val.str "base") := by
  refine ⟨?_, ?_, ?_, ?_, ?_, ?_, ?_⟩
  · intro hb
    simp [renderMermaidToSvgWith, hb]
  · intro hb
    cases hr : render "mermaid-render" code <;> simp [renderMermaidToSvgWith, hb, hr]
  · intro hn
    unfold rendererConfig prop
    rw [hn]
    simp [truthy, own]
  · simp [rendererConfig, prop, catppuccinThemes, truthy, own]
  · simp [rendererConfig, prop, catppuccinThemes, truthy, own]
  · simp [rendererConfig, prop, catppuccinThemes, truthy, own]
  · simp [rendererConfig, prop, catppuccinThemes, truthy, own]

/-- C15, the code at the failing input: `MermaidPanel.jsx` does not export
`CATPPUCCIN_THEMES`, so the binding that `mermaidRenderer.js` imports is undefined,
and for every non-blank code `renderMermaidToSvg` fails with a `TypeError` at
`CATPPUCCIN_THEMES[theme]` before it makes any call on the render service, also
when the service would return an image. -/
theorem renderMermaidToSvg_fails_without_export (render : RenderService)
    (code theme : String) :
    importedCatppuccinThemes = none ∧
      renderMermaidToSvg render code theme =
        (if isBlank code then (Except.ok "", []) else (Except.error undefinedReadError, [])) ∧
      renderMermaidToSvg (constantService "<svg></svg>") "graph TD; A-->B" "default" =
        (Except.error undefinedReadError, []) := by
  have hi : importedCatppuccinThemes = none := by
    simp [importedCatppuccinThemes, mermaidPanelExports]
  refine ⟨hi, ?_, ?_⟩
  · cases hb : isBlank code <;> simp [renderMermaidToSvg, renderMermaidToSvgWith, hi, hb]
  · have hb : isBlank "graph TD; A-->B" = false := by decide
    simp [renderMermaidToSvg, renderMermaidToSvgWith, hi, hb]

end Excalidraw
